import Mathlib

/-!
# AVoxelChunk (VoxelChunk.cpp): a shallow embedding

The chunk is a record of its member variables.  Every member function is a
function from the chunk before the call to the value returned, the chunk after
the call and the calls made on collaborators (the render manager, the thread
pools, the timer manager, the mesh component) in program order.  A failed
`check` and the dereference of a null pointer are faults.

The octree, the world settings, the polygonizer, the foliage generator and the
engine's CRC are not part of VoxelChunk.cpp; they enter as data or as function
parameters.
-/

namespace VoxelChunk

/-! ## Collaborator data -/

/-- Identity of a ChunkOctree node (what a TSharedPtr / TWeakPtr points at). -/
abbrev NodeId := Nat

/-- The enum TransitionDirection: the loops cast `int i`, `0 <= i < 6`, to it. -/
abbrev TransitionDirection := Fin 6

/-- The values of `i` visited by `for (int i = 0; i < 6; i++)`, in order. -/
def allDirections : List TransitionDirection := [0, 1, 2, 3, 4, 5]

/-- Integer 3-vector. -/
structure FIntVector where
  X : Int
  Y : Int
  Z : Int
  deriving DecidableEq, Repr

/-- Engine mesh section; its buffers are opaque to the chunk, which only copies
and forwards sections.  `FProcMeshSection()` has empty buffers. -/
structure FProcMeshSection where
  ProcVertexBuffer : List Int
  ProcIndexBuffer : List Nat
  deriving DecidableEq, Repr

/-- The default-constructed section `FProcMeshSection()`. -/
def FProcMeshSection.empty : FProcMeshSection := ⟨[], []⟩

/-- Static mesh asset; only its name is read (`GrassMesh->GetName()`). -/
structure UStaticMesh where
  Name : String
  deriving DecidableEq, Repr

/-- The fields of FGrassVariety that ApplyNewFoliage reads. -/
structure FGrassVariety where
  GrassMesh : UStaticMesh
  MinLOD : Int
  bReceivesDecals : Bool
  LightingChannels : Nat
  StartCullDistance : Int
  EndCullDistance : Int
  deriving DecidableEq, Repr

/-- A grass type: its list of varieties. -/
structure UGrassType where
  GrassVarieties : List FGrassVariety
  deriving DecidableEq, Repr

/-- The world settings the chunk reads through `Render->World`. -/
structure AVoxelWorld where
  bComputeTransitions : Bool
  DeletionDelay : Rat
  GrassTypes : List UGrassType
  VoxelSize : Rat
  Data : Nat
  deriving DecidableEq

/-- The render manager the chunk points at; its state is visible to the chunk
only through `World` and through the calls recorded as events. -/
structure VoxelRender where
  World : AVoxelWorld
  deriving DecidableEq

/-- Arguments of the VoxelPolygonizer constructor, as passed by CreateBuilder
(the flag array is passed by value). -/
structure VoxelPolygonizer where
  Depth : Nat
  Data : Nat
  ChunkPosition : FIntVector
  ChunkHasHigherRes : TransitionDirection → Bool
  bComputeTransitions : Bool
  deriving DecidableEq

/-- The task object `FAsyncTask<FAsyncPolygonizerTask>(Builder, this)`: it holds
the builder pointer it was constructed with. -/
structure FAsyncPolygonizerTask where
  Builder : Option VoxelPolygonizer
  deriving DecidableEq

/-- The task object `FAsyncTask<FAsyncFoliageTask>`: its constructor arguments
`(Section, GrassVariety, Index, VoxelSize, ChunkPosition, 10, this)`. -/
structure FAsyncFoliageTask where
  Section : FProcMeshSection
  GrassVariety : FGrassVariety
  GrassTypeIndex : Nat
  VoxelSize : Rat
  ChunkPosition : FIntVector
  Arg6 : Nat
  deriving DecidableEq

/-- What a completed foliage task exposes: instance buffer, cluster tree and
occlusion layer count. -/
structure FoliageResult where
  InstanceBuffer : List Int
  ClusterTree : List Nat
  OutOcclusionLayerNum : Int
  deriving DecidableEq, Repr

/-- The component ApplyNewFoliage creates with `NewObject`: the properties it
sets from the grass variety and the task, and the seed. -/
structure UHierarchicalInstancedStaticMeshComponent where
  StaticMesh : UStaticMesh
  MinLOD : Int
  bReceivesDecals : Bool
  InstancingRandomSeed : Int
  LightingChannels : Nat
  InstanceStartCullDistance : Int
  InstanceEndCullDistance : Int
  InstanceBuffer : List Int
  ClusterTree : List Nat
  OcclusionLayerNum : Int
  deriving DecidableEq, Repr

/-- Engine and plugin functions that VoxelChunk.cpp calls but does not define. -/
structure Engine where
  /-- Engine function `VoxelPolygonizer::CreateSection`: the section a builder produces. -/
  CreateSection : VoxelPolygonizer → FProcMeshSection
  /-- The result a foliage task holds once `EnsureCompletion` has returned. -/
  FoliageWork : FAsyncFoliageTask → FoliageResult
  /-- Engine function `FCrc::StrCrc32`, an unsigned 32-bit value. -/
  StrCrc32 : String → Nat
  /-- The function InvertTransitionDirection of the enum's header. -/
  InvertTransitionDirection : TransitionDirection → TransitionDirection

/-! ## The chunk -/

/-- Engine timer handle: the number the timer manager wrote into it; a
default-constructed handle holds 0. -/
structure FTimerHandle where
  Handle : Nat
  deriving DecidableEq, Repr

/-- Material asset; the chunk only forwards the pointer. -/
structure UMaterialInterface where
  Name : String
  deriving DecidableEq, Repr

/-- Member variables of AVoxelChunk.  `PrimaryMesh` is section 0 of the
procedural mesh component (`none` until a section has been set) and
`PrimaryMeshMaterial` its material slot 0 (`none` for a null pointer); the
three `Relative*` fields are the actor transform written by Init;
`DeleteTimer` is the handle passed to SetTimer.  The actor label, written by
Init and Delete in editor builds only, is left out. -/
structure AVoxelChunk where
  Name : String
  Render : Option VoxelRender
  CurrentOctree : Option NodeId
  MeshBuilder : Option FAsyncPolygonizerTask
  Builder : Option VoxelPolygonizer
  ChunkHasHigherRes : TransitionDirection → Bool
  Section : FProcMeshSection
  PrimaryMesh : Option FProcMeshSection
  FoliageTasks : List FAsyncFoliageTask
  FoliageComponents : List UHierarchicalInstancedStaticMeshComponent
  CompletedFoliageTaskCount : Int
  RelativeLocation : FIntVector
  RelativeRotation : FIntVector
  RelativeScale3D : FIntVector
  DeleteTimer : FTimerHandle
  PrimaryMeshMaterial : Option UMaterialInterface
  deriving DecidableEq

/-- The octree as the chunk sees it: per node its depth, render manager,
minimal corner, adjacent node per direction and bound chunk. -/
structure ChunkOctree where
  Depth : NodeId → Nat
  Render : NodeId → VoxelRender
  GetMinimalCornerPosition : NodeId → FIntVector
  GetAdjacentChunk : NodeId → TransitionDirection → Option NodeId
  GetVoxelChunk : NodeId → Option AVoxelChunk

/-- Who a timer calls when it fires. -/
inductive TimerCallback where
  | Delete
  deriving DecidableEq, Repr

/-- Calls the chunk makes on its collaborators. -/
inductive Event where
  /-- The call `Render->AddTransitionCheck(this)` -/
  | AddTransitionCheck
  /-- The call `MeshBuilder->StartBackgroundTask(Render->MeshThreadPool)` -/
  | StartMeshTask (task : FAsyncPolygonizerTask)
  /-- The call `FoliageTask->StartBackgroundTask(Render->FoliageThreadPool)` -/
  | StartFoliageTask (task : FAsyncFoliageTask)
  /-- The call `Render->UpdateChunk(Chunk, bAsync)` -/
  | UpdateChunk (node : NodeId) (bAsync : Bool)
  /-- The call `GetTimerManager().SetTimer(DeleteTimer, this, callback, InRate, InbLoop)` -/
  | SetTimer (callback : TimerCallback) (InRate : Rat) (InbLoop : Bool)
  /-- The call `PrimaryMesh->SetProcMeshSection(index, section)` -/
  | SetProcMeshSection (index : Nat) (section_ : FProcMeshSection)
  /-- The call `UNavigationSystem::UpdateComponentInNavOctree(*PrimaryMesh)` -/
  | UpdateComponentInNavOctree
  /-- The call `FoliageComponent->DestroyComponent()` -/
  | DestroyComponent (component : UHierarchicalInstancedStaticMeshComponent)
  /-- The call `Render->SetChunkAsInactive(this)` -/
  | SetChunkAsInactive
  /-- The call `Render->AddApplyNewMesh(this)` -/
  | AddApplyNewMesh
  /-- The call `Render->AddFoliageUpdate(this)` -/
  | AddFoliageUpdate
  /-- The call `Render->AddApplyNewFoliage(this)` -/
  | AddApplyNewFoliage
  deriving DecidableEq

/-- How a call can abort. -/
inductive Fault where
  /-- a `check(...)` failed -/
  | assertion
  /-- a null pointer was dereferenced -/
  | nullPointer
  deriving DecidableEq, Repr

/-- Outcome of a call that ran to its end. -/
structure Out (α : Type) where
  ret : α
  chunk : AVoxelChunk
  events : List Event

/-- The constructor: null pointers, `ChunkHasHigherRes.SetNumZeroed(6)`. -/
def AVoxelChunk.new (Name : String) : AVoxelChunk :=
  { Name := Name
    Render := none
    CurrentOctree := none
    MeshBuilder := none
    Builder := none
    ChunkHasHigherRes := fun _ => false
    Section := FProcMeshSection.empty
    PrimaryMesh := none
    FoliageTasks := []
    FoliageComponents := []
    CompletedFoliageTaskCount := 0
    RelativeLocation := ⟨0, 0, 0⟩
    RelativeRotation := ⟨0, 0, 0⟩
    RelativeScale3D := ⟨1, 1, 1⟩
    DeleteTimer := ⟨0⟩
    PrimaryMeshMaterial := none }

/-! ## Member functions -/

/-- Member function `Init(NewOctree)`: `check(NewOctree.IsValid())`, bind the node and its render
manager, place the actor at the node's minimal corner with zero rotation and
unit scale, and register a transition check. -/
def Init (t : ChunkOctree) (NewOctree : Option NodeId) (c : AVoxelChunk) :
    Except Fault (Out Unit) :=
  match NewOctree with
  | none => .error .assertion
  | some n =>
    let NewPosition := t.GetMinimalCornerPosition n
    .ok { ret := ()
          chunk := { c with
            CurrentOctree := some n
            Render := some (t.Render n)
            RelativeLocation := NewPosition
            RelativeRotation := ⟨0, 0, 0⟩
            RelativeScale3D := ⟨1, 1, 1⟩ }
          events := [.AddTransitionCheck] }

/-- Body of the loop of Update for one `i`: the flag of direction `i` becomes
`Chunk.Pin()->Depth < CurrentOctree->Depth` when the adjacent node is valid and
`false` otherwise. -/
def UpdateFlag (t : ChunkOctree) (n : NodeId) (flags : TransitionDirection → Bool)
    (i : TransitionDirection) : TransitionDirection → Bool :=
  match t.GetAdjacentChunk n i with
  | some m => Function.update flags i (decide (t.Depth m < t.Depth n))
  | none => Function.update flags i false

/-- The loop `for (int i = 0; i < 6; i++)` of Update. -/
def UpdateFlags (t : ChunkOctree) (n : NodeId) (flags : TransitionDirection → Bool) :
    TransitionDirection → Bool :=
  allDirections.foldl (UpdateFlag t n) flags

/-- The first block of Update: the flags are recomputed when the node's depth is
not 0 and left alone otherwise. -/
def RefreshFlags (t : ChunkOctree) (n : NodeId) (c : AVoxelChunk) : AVoxelChunk :=
  if t.Depth n != 0 then
    { c with ChunkHasHigherRes := UpdateFlags t n c.ChunkHasHigherRes }
  else c

/-- The object `new VoxelPolygonizer(...)` of CreateBuilder. -/
def NewPolygonizer (t : ChunkOctree) (n : NodeId) (r : VoxelRender)
    (flags : TransitionDirection → Bool) : VoxelPolygonizer :=
  { Depth := t.Depth n
    Data := r.World.Data
    ChunkPosition := t.GetMinimalCornerPosition n
    ChunkHasHigherRes := flags
    bComputeTransitions := (t.Depth n != 0 && r.World.bComputeTransitions) }

/-- Member function `CreateBuilder()`: `check(!Builder)`, then a new polygonizer from the node's
depth, the world data, the node's minimal corner, the cached flags and
`Depth != 0 && bComputeTransitions`. -/
def CreateBuilder (t : ChunkOctree) (c : AVoxelChunk) : Except Fault AVoxelChunk :=
  match c.Builder with
  | some _ => .error .assertion
  | none =>
    match c.CurrentOctree, c.Render with
    | some n, some r => .ok { c with Builder := some (NewPolygonizer t n r c.ChunkHasHigherRes) }
    | _, _ => .error .nullPointer

/-- Member function `ApplyNewMesh()`: wait for and free the mesh task, free the builder, queue a
foliage update, push `Section` to the mesh component and refresh navigation. -/
def ApplyNewMesh (c : AVoxelChunk) : Except Fault (Out Unit) :=
  let c1 := { c with MeshBuilder := none, Builder := none }
  match c1.Render with
  | none => .error .nullPointer
  | some _ =>
    .ok { ret := ()
          chunk := { c1 with PrimaryMesh := some c1.Section }
          events := [.AddFoliageUpdate, .SetProcMeshSection 0 c1.Section,
                     .UpdateComponentInNavOctree] }

/-- Member function `Update(bAsync)`. -/
def Update (e : Engine) (t : ChunkOctree) (bAsync : Bool) (c : AVoxelChunk) :
    Except Fault (Out Bool) :=
  match c.CurrentOctree with
  | none => .error .nullPointer
  | some n =>
    let c1 := RefreshFlags t n c
    if bAsync then
      match c1.MeshBuilder with
      | none =>
        match CreateBuilder t c1 with
        | .error f => .error f
        | .ok c2 =>
          let task : FAsyncPolygonizerTask := { Builder := c2.Builder }
          match c2.Render with
          | none => .error .nullPointer
          | some _ =>
            .ok { ret := true
                  chunk := { c2 with MeshBuilder := some task }
                  events := [.StartMeshTask task] }
      | some _ => .ok { ret := false, chunk := c1, events := [] }
    else
      let c2 := { c1 with MeshBuilder := none, Builder := none }
      match CreateBuilder t c2 with
      | .error f => .error f
      | .ok c3 =>
        match c3.Builder with
        | none => .error .nullPointer
        | some b =>
          let c4 := { c3 with Section := e.CreateSection b, Builder := none }
          match ApplyNewMesh c4 with
          | .error f => .error f
          | .ok o => .ok { ret := true, chunk := o.chunk, events := o.events }

/-- Member function `HasChunkHigherRes(Direction)`:
`CurrentOctree->Depth != 0 && ChunkHasHigherRes[Direction]`. -/
def HasChunkHigherRes (t : ChunkOctree) (c : AVoxelChunk) (Direction : TransitionDirection) :
    Except Fault Bool :=
  match c.CurrentOctree with
  | none => .error .nullPointer
  | some n => .ok (t.Depth n != 0 && c.ChunkHasHigherRes Direction)

/-- Body of the loop of CheckTransitions for one direction: the requests it
sends to the render manager. -/
def CheckTransition (e : Engine) (t : ChunkOctree) (c : AVoxelChunk)
    (Direction : TransitionDirection) : Except Fault (List Event) :=
  match c.CurrentOctree with
  | none => .error .nullPointer
  | some n =>
    match t.GetAdjacentChunk n Direction with
    | none => .ok []
    | some m =>
      let bThisHasHigherRes := decide (t.Depth m > t.Depth n)
      match t.GetVoxelChunk m with
      | none => .error .assertion
      | some nc =>
        match HasChunkHigherRes t nc (e.InvertTransitionDirection Direction) with
        | .error f => .error f
        | .ok b =>
          if bThisHasHigherRes != b then .ok [.UpdateChunk m true] else .ok []

/-- The loop of CheckTransitions over the given directions. -/
def CheckTransitionsLoop (e : Engine) (t : ChunkOctree) (c : AVoxelChunk) :
    List TransitionDirection → Except Fault (List Event)
  | [] => .ok []
  | d :: ds =>
    match CheckTransition e t c d with
    | .error f => .error f
    | .ok ev =>
      match CheckTransitionsLoop e t c ds with
      | .error f => .error f
      | .ok evs => .ok (ev ++ evs)

/-- Member function `CheckTransitions()`. -/
def CheckTransitions (e : Engine) (t : ChunkOctree) (c : AVoxelChunk) :
    Except Fault (Out Unit) :=
  match c.Render with
  | none => .error .nullPointer
  | some r =>
    if r.World.bComputeTransitions then
      match CheckTransitionsLoop e t c allDirections with
      | .error f => .error f
      | .ok evs => .ok { ret := (), chunk := c, events := evs }
    else .ok { ret := (), chunk := c, events := [] }

/-- Member function `DeleteTasks()`: wait for and free the mesh task, free the builder, wait for
and free every foliage task, empty the task list. -/
def DeleteTasks (c : AVoxelChunk) : AVoxelChunk :=
  { c with MeshBuilder := none, Builder := none, FoliageTasks := [] }

/-- Member function `Unload()`.  `NewHandle` is the handle the timer manager
writes into `DeleteTimer` when it arms the timer. -/
def Unload (NewHandle : FTimerHandle) (c : AVoxelChunk) : Except Fault (Out Unit) :=
  let c1 := DeleteTasks c
  match c1.Render with
  | none => .error .nullPointer
  | some r =>
    .ok { ret := ()
          chunk := { c1 with DeleteTimer := NewHandle }
          events := [.AddTransitionCheck,
                     .SetTimer .Delete r.World.DeletionDelay false] }

/-- Member function `SetMaterial(Material)`:
`PrimaryMesh->SetMaterial(0, Material)`. -/
def SetMaterial (Material : Option UMaterialInterface) (c : AVoxelChunk) : AVoxelChunk :=
  { c with PrimaryMeshMaterial := Material }

/-- Member function `Delete()`. -/
def Delete (c : AVoxelChunk) : Except Fault (Out Unit) :=
  let c1 := DeleteTasks c
  let c2 := { c1 with PrimaryMesh := some FProcMeshSection.empty }
  let destroyed := c2.FoliageComponents.map Event.DestroyComponent
  let c3 := { c2 with FoliageComponents := [] }
  match c3.Render with
  | none => .error .nullPointer
  | some _ =>
    .ok { ret := ()
          chunk := { c3 with Render := none, CurrentOctree := none }
          events := [.SetProcMeshSection 0 FProcMeshSection.empty] ++ destroyed
                      ++ [.SetChunkAsInactive] }

/-- Member function `OnMeshComplete(InSection)`. -/
def OnMeshComplete (InSection : FProcMeshSection) (c : AVoxelChunk) :
    Except Fault (Out Unit) :=
  let c1 := { c with Section := InSection }
  match c1.Render with
  | none => .error .nullPointer
  | some _ => .ok { ret := (), chunk := c1, events := [.AddApplyNewMesh] }

/-- The tasks the inner loop of UpdateFoliage creates for grass type `Index`. -/
def FoliageTasksOfType (t : ChunkOctree) (r : VoxelRender) (n : NodeId) (c : AVoxelChunk)
    (Index : Nat) (GrassType : UGrassType) : List FAsyncFoliageTask :=
  GrassType.GrassVarieties.map fun GrassVariety =>
    { Section := c.Section
      GrassVariety := GrassVariety
      GrassTypeIndex := Index
      VoxelSize := r.World.VoxelSize
      ChunkPosition := t.GetMinimalCornerPosition n
      Arg6 := 10 }

/-- The outer loop of UpdateFoliage from index `Index` on. -/
def FoliageTasksFrom (t : ChunkOctree) (r : VoxelRender) (n : NodeId) (c : AVoxelChunk) :
    Nat → List UGrassType → List FAsyncFoliageTask
  | _, [] => []
  | Index, GrassType :: rest =>
    FoliageTasksOfType t r n c Index GrassType ++ FoliageTasksFrom t r n c (Index + 1) rest

/-- Member function `UpdateFoliage()`. -/
def UpdateFoliage (t : ChunkOctree) (c : AVoxelChunk) : Except Fault (Out Bool) :=
  if c.FoliageTasks.length = 0 then
    match c.Render with
    | none => .error .nullPointer
    | some r =>
      match c.CurrentOctree with
      | none =>
        -- `CurrentOctree` is dereferenced only when a task is created
        if r.World.GrassTypes.all (fun g => g.GrassVarieties.isEmpty) then
          .ok { ret := true, chunk := c, events := [] }
        else .error .nullPointer
      | some n =>
        let tasks := FoliageTasksFrom t r n c 0 r.World.GrassTypes
        .ok { ret := true
              chunk := { c with FoliageTasks := c.FoliageTasks ++ tasks }
              events := tasks.map Event.StartFoliageTask }
  else .ok { ret := false, chunk := c, events := [] }

/-- Member function `OnAllFoliageComplete()`. -/
def OnAllFoliageComplete (c : AVoxelChunk) : Except Fault (Out Unit) :=
  match c.Render with
  | none => .error .nullPointer
  | some _ =>
    .ok { ret := ()
          chunk := { c with CompletedFoliageTaskCount := 0 }
          events := [.AddApplyNewFoliage] }

/-- Member function `OnFoliageComplete()`. -/
def OnFoliageComplete (c : AVoxelChunk) : Except Fault (Out Unit) :=
  let c1 := { c with CompletedFoliageTaskCount := c.CompletedFoliageTaskCount + 1 }
  if c1.CompletedFoliageTaskCount = (c1.FoliageTasks.length : Int) then
    OnAllFoliageComplete c1
  else .ok { ret := (), chunk := c1, events := [] }

/-- Conversion of an unsigned 32-bit value to `int32` (two's complement). -/
def toInt32 (x : Nat) : Int :=
  if x % 2 ^ 32 < 2 ^ 31 then ((x % 2 ^ 32 : Nat) : Int)
  else ((x % 2 ^ 32 : Nat) : Int) - 2 ^ 32

/-- The seed computed in ApplyNewFoliage:
`int32 FolSeed = FCrc::StrCrc32(GrassMesh->GetName() + GetName()); if (FolSeed == 0) FolSeed++;` -/
def FolSeed (e : Engine) (GrassMeshName ChunkName : String) : Int :=
  let FolSeed := toInt32 (e.StrCrc32 (GrassMeshName ++ ChunkName))
  if FolSeed = 0 then FolSeed + 1 else FolSeed

/-- Body of the task loop of ApplyNewFoliage: the component created for one
task, if its instance buffer is not empty. -/
def FoliageComponentOfTask (e : Engine) (c : AVoxelChunk) (FoliageTask : FAsyncFoliageTask) :
    Option UHierarchicalInstancedStaticMeshComponent :=
  let Task := e.FoliageWork FoliageTask
  if Task.InstanceBuffer.length != 0 then
    let GrassVariety := FoliageTask.GrassVariety
    some { StaticMesh := GrassVariety.GrassMesh
           MinLOD := GrassVariety.MinLOD
           bReceivesDecals := GrassVariety.bReceivesDecals
           InstancingRandomSeed := FolSeed e GrassVariety.GrassMesh.Name c.Name
           LightingChannels := GrassVariety.LightingChannels
           InstanceStartCullDistance := GrassVariety.StartCullDistance
           InstanceEndCullDistance := GrassVariety.EndCullDistance
           InstanceBuffer := Task.InstanceBuffer
           ClusterTree := Task.ClusterTree
           OcclusionLayerNum := Task.OutOcclusionLayerNum }
  else none

/-- Member function `ApplyNewFoliage()`. -/
def ApplyNewFoliage (e : Engine) (c : AVoxelChunk) : Out Unit :=
  let destroyed := c.FoliageComponents.map Event.DestroyComponent
  let c1 := { c with FoliageComponents := [] }
  let created := c1.FoliageTasks.filterMap (FoliageComponentOfTask e c1)
  { ret := ()
    chunk := { c1 with FoliageComponents := c1.FoliageComponents ++ created
                       FoliageTasks := [] }
    events := destroyed }

/-! ## Sequences of calls -/

/-- A call on the chunk, made by the render manager, the timer or a worker. -/
inductive Call where
  | Init (NewOctree : Option NodeId)
  | Update (bAsync : Bool)
  | CheckTransitions
  | Unload (NewHandle : FTimerHandle)
  | Delete
  | OnMeshComplete (InSection : FProcMeshSection)
  | ApplyNewMesh
  | UpdateFoliage
  | OnFoliageComplete
  | ApplyNewFoliage
  | DeleteTasks
  | SetMaterial (Material : Option UMaterialInterface)

/-- One call: the chunk after it and the events it produced. -/
def step (e : Engine) (t : ChunkOctree) (c : AVoxelChunk) :
    Call → Except Fault (AVoxelChunk × List Event)
  | .Init n => (Init t n c).map fun o => (o.chunk, o.events)
  | .Update b => (Update e t b c).map fun o => (o.chunk, o.events)
  | .CheckTransitions => (CheckTransitions e t c).map fun o => (o.chunk, o.events)
  | .Unload h => (Unload h c).map fun o => (o.chunk, o.events)
  | .Delete => (Delete c).map fun o => (o.chunk, o.events)
  | .OnMeshComplete s => (OnMeshComplete s c).map fun o => (o.chunk, o.events)
  | .ApplyNewMesh => (ApplyNewMesh c).map fun o => (o.chunk, o.events)
  | .UpdateFoliage => (UpdateFoliage t c).map fun o => (o.chunk, o.events)
  | .OnFoliageComplete => (OnFoliageComplete c).map fun o => (o.chunk, o.events)
  | .ApplyNewFoliage => .ok ((ApplyNewFoliage e c).chunk, (ApplyNewFoliage e c).events)
  | .DeleteTasks => .ok (DeleteTasks c, [])
  | .SetMaterial m => .ok (SetMaterial m c, [])

/-- A sequence of calls against one tree; the events are concatenated. -/
def run (e : Engine) (t : ChunkOctree) :
    List Call → AVoxelChunk → Except Fault (AVoxelChunk × List Event)
  | [], c => .ok (c, [])
  | k :: ks, c =>
    match step e t c k with
    | .error f => .error f
    | .ok (c1, ev) =>
      match run e t ks c1 with
      | .error f => .error f
      | .ok (c2, evs) => .ok (c2, ev ++ evs)

/-- Consecutive `Update(true)` calls, one per tree state: what each call
returned and sent, and the chunk after the last. -/
def UpdateAsyncSeq (e : Engine) :
    List ChunkOctree → AVoxelChunk → Except Fault (List (Bool × List Event) × AVoxelChunk)
  | [], c => .ok ([], c)
  | t :: ts, c =>
    match Update e t true c with
    | .error f => .error f
    | .ok o =>
      match UpdateAsyncSeq e ts o.chunk with
      | .error f => .error f
      | .ok (rs, c1) => .ok ((o.ret, o.events) :: rs, c1)

/-- The chunk a result holds, if the calls ran to their end. -/
def chunkOf {α : Type} : Except Fault (AVoxelChunk × α) → Option AVoxelChunk
  | .ok (c, _) => some c
  | .error _ => none

/-- The flag a chunk reports for a direction right after `Update(bAsync)`. -/
def FlagAfterUpdate (e : Engine) (t : ChunkOctree) (bAsync : Bool) (c : AVoxelChunk)
    (Direction : TransitionDirection) : Except Fault Bool :=
  match Update e t bAsync c with
  | .error f => .error f
  | .ok o => HasChunkHigherRes t o.chunk Direction

/-- Consecutive `OnFoliageComplete()` calls: the events of each call in order,
and the chunk after the last. -/
def OnFoliageCompleteSeq : Nat → AVoxelChunk → Except Fault (List (List Event) × AVoxelChunk)
  | 0, c => .ok ([], c)
  | k + 1, c =>
    match OnFoliageComplete c with
    | .error f => .error f
    | .ok o =>
      match OnFoliageCompleteSeq k o.chunk with
      | .error f => .error f
      | .ok (evs, c1) => .ok (o.events :: evs, c1)

/-- A sequence of calls, each against the tree as it is at that call; the
events are concatenated. -/
def runT (e : Engine) :
    List (ChunkOctree × Call) → AVoxelChunk → Except Fault (AVoxelChunk × List Event)
  | [], c => .ok (c, [])
  | (t, k) :: ks, c =>
    match step e t c k with
    | .error f => .error f
    | .ok (c1, ev) =>
      match runT e ks c1 with
      | .error f => .error f
      | .ok (c2, evs) => .ok (c2, ev ++ evs)

/-- A sequence of calls, each against the tree as it is at that call, with the
history it leaves: every call that ran, in order, with the events it sent. -/
def runH (e : Engine) :
    List (ChunkOctree × Call) → AVoxelChunk →
      Except Fault (AVoxelChunk × List (Call × List Event))
  | [], c => .ok (c, [])
  | (t, k) :: ks, c =>
    match step e t c k with
    | .error f => .error f
    | .ok (c1, ev) =>
      match runH e ks c1 with
      | .error f => .error f
      | .ok (c2, h) => .ok (c2, (k, ev) :: h)

/-- The history a result holds; empty if the calls did not run to their end. -/
def historyOf : Except Fault (AVoxelChunk × List (Call × List Event)) →
    List (Call × List Event)
  | .ok (_, h) => h
  | .error _ => []

/-! ## Sample data -/

/-- Engine functions for the examples: an empty section, three foliage
instances per task, a CRC of zero, and directions paired 0-1, 2-3, 4-5. -/
def sampleEngine : Engine :=
  { CreateSection := fun b => ⟨[(b.Depth : Int)], [0]⟩
    FoliageWork := fun _ => ⟨[1, 2, 3], [], 0⟩
    StrCrc32 := fun _ => 0
    InvertTransitionDirection := fun d =>
      if d = 0 then 1 else if d = 1 then 0 else if d = 2 then 3 else if d = 3 then 2
      else if d = 4 then 5 else 4 }

/-- A grass variety for the examples. -/
def sampleVariety : FGrassVariety :=
  { GrassMesh := ⟨"Grass"⟩, MinLOD := 0, bReceivesDecals := false, LightingChannels := 1
    StartCullDistance := 100, EndCullDistance := 200 }

/-- World settings for the examples: transitions on, two grass types with two
and one varieties. -/
def sampleWorld : AVoxelWorld :=
  { bComputeTransitions := true, DeletionDelay := 5
    GrassTypes := [⟨[sampleVariety, sampleVariety]⟩, ⟨[sampleVariety]⟩]
    VoxelSize := 100, Data := 0 }

/-- The render manager of the examples. -/
def sampleRender : VoxelRender := ⟨sampleWorld⟩

/-- A tree for the examples: node 0 has depth 2 and corner (16,16,16), node 1 has
depth 1; node 1 is adjacent to node 0 in direction 0 and node 0 to node 1 in
direction 1; no node has a bound chunk recorded. -/
def sampleTree : ChunkOctree :=
  { Depth := fun n => if n = 0 then 2 else 1
    Render := fun _ => sampleRender
    GetMinimalCornerPosition := fun n => if n = 0 then ⟨16, 16, 16⟩ else ⟨0, 0, 0⟩
    GetAdjacentChunk := fun n d =>
      if n = 0 ∧ d = 0 then some 1 else if n = 1 ∧ d = 1 then some 0 else none
    GetVoxelChunk := fun _ => none }

/-- A chunk bound to node `n` of the sample tree, with no task. -/
def sampleChunk (n : NodeId) : AVoxelChunk :=
  { AVoxelChunk.new "Chunk" with Render := some sampleRender, CurrentOctree := some n }

/-- A tree whose nodes all have depth 0 and no adjacent node. -/
def rootTree : ChunkOctree :=
  { Depth := fun _ => 0
    Render := fun _ => sampleRender
    GetMinimalCornerPosition := fun _ => ⟨0, 0, 0⟩
    GetAdjacentChunk := fun _ _ => none
    GetVoxelChunk := fun _ => none }

/-- A chunk bound to node `n` whose cached flags are all set. -/
def flaggedChunk (n : NodeId) : AVoxelChunk :=
  { sampleChunk n with ChunkHasHigherRes := fun _ => true }

/-- The sample tree with a chunk bound to every node, none of which has run
Update yet. -/
def boundTree : ChunkOctree :=
  { sampleTree with GetVoxelChunk := fun m => some (sampleChunk m) }

/-- A foliage task of the examples, built over the empty section. -/
def sampleFoliageTask : FAsyncFoliageTask :=
  { Section := FProcMeshSection.empty, GrassVariety := sampleVariety, GrassTypeIndex := 0
    VoxelSize := 100, ChunkPosition := ⟨16, 16, 16⟩, Arg6 := 10 }

/-- A foliage component of the examples. -/
def sampleComponent : UHierarchicalInstancedStaticMeshComponent :=
  { StaticMesh := ⟨"Grass"⟩, MinLOD := 0, bReceivesDecals := false, InstancingRandomSeed := 1
    LightingChannels := 1, InstanceStartCullDistance := 100, InstanceEndCullDistance := 200
    InstanceBuffer := [1, 2, 3], ClusterTree := [], OcclusionLayerNum := 0 }

/-- The sample chunk of node 0 with an outstanding mesh task, a builder, one
foliage task and one foliage component. -/
def busyChunk : AVoxelChunk :=
  { sampleChunk 0 with
    Builder := some (NewPolygonizer sampleTree 0 sampleRender fun _ => false)
    MeshBuilder := some ⟨some (NewPolygonizer sampleTree 0 sampleRender fun _ => false)⟩
    FoliageTasks := [sampleFoliageTask]
    FoliageComponents := [sampleComponent] }

/-- Two distinct sections for the examples. -/
def sectionA : FProcMeshSection := ⟨[1], [0]⟩

/-- The second of two distinct sections for the examples. -/
def sectionB : FProcMeshSection := ⟨[2], [0]⟩

/-- The outcome of `UpdateFoliage()` on the idle sample chunk of node 0. -/
def sampleFoliageOut : Out Bool :=
  { ret := true
    chunk := { sampleChunk 0 with
      FoliageTasks := FoliageTasksFrom sampleTree sampleRender 0 (sampleChunk 0) 0
        sampleWorld.GrassTypes }
    events := (FoliageTasksFrom sampleTree sampleRender 0 (sampleChunk 0) 0
        sampleWorld.GrassTypes).map Event.StartFoliageTask }

/-- The sample tree before node 1 exists next to node 0: same nodes and depths,
no adjacent node anywhere. -/
def loneTree : ChunkOctree :=
  { sampleTree with GetAdjacentChunk := fun _ _ => none }

/-- The sample tree in which each node's bound chunk is the sample chunk of that
node after `Update(false)`. -/
def updatedTree : ChunkOctree :=
  { sampleTree with
    GetVoxelChunk := fun m =>
      chunkOf (step sampleEngine sampleTree (sampleChunk m) (.Update false)) }

/-- The sample chunk of node `n` after `Update(false)` in the sample tree. -/
def updatedOut (n : NodeId) : Out Bool :=
  { ret := true
    chunk := { RefreshFlags sampleTree n (sampleChunk n) with
      MeshBuilder := none
      Builder := none
      Section := sampleEngine.CreateSection
        (NewPolygonizer sampleTree n sampleRender
          (RefreshFlags sampleTree n (sampleChunk n)).ChunkHasHigherRes)
      PrimaryMesh := some (sampleEngine.CreateSection
        (NewPolygonizer sampleTree n sampleRender
          (RefreshFlags sampleTree n (sampleChunk n)).ChunkHasHigherRes)) }
    events := [.AddFoliageUpdate,
      .SetProcMeshSection 0 (sampleEngine.CreateSection
        (NewPolygonizer sampleTree n sampleRender
          (RefreshFlags sampleTree n (sampleChunk n)).ChunkHasHigherRes)),
      .UpdateComponentInNavOctree] }

/-- The calls of a chunk that is bound to node 0, builds a mesh, has it completed
with section A and applied. -/
def appliedCalls : List (ChunkOctree × Call) :=
  [(sampleTree, .Init (some 0)), (sampleTree, .Update true),
   (sampleTree, .OnMeshComplete sectionA), (sampleTree, .ApplyNewMesh)]

/-- The history of the applied calls from the constructor. -/
def appliedHistory : List (Call × List Event) :=
  historyOf (runH sampleEngine appliedCalls (AVoxelChunk.new "Chunk"))

/-- The chunk after the applied calls and an `UpdateFoliage()` call. -/
def foliageChunkA : AVoxelChunk :=
  (chunkOf (runH sampleEngine (appliedCalls ++ [(sampleTree, Call.UpdateFoliage)])
    (AVoxelChunk.new "Chunk"))).getD (AVoxelChunk.new "Chunk")

/-- The three foliage tasks of the sample world built over section A at node 0. -/
def foliageEventsA : List Event :=
  (FoliageTasksFrom sampleTree sampleRender 0
    { sampleChunk 0 with Section := sectionA } 0 sampleWorld.GrassTypes).map
    Event.StartFoliageTask

/-! ## Statements taken from the specification -/

/-- The request the transition protocol asks for in direction `d`: one async
remesh of the adjacent node when there is one and `neighbourDepth > selfDepth`
differs from what the neighbour's chunk reports for the opposite direction. -/
def MismatchRequest (e : Engine) (t : ChunkOctree) (n : NodeId) (d : TransitionDirection) :
    Option Event :=
  match t.GetAdjacentChunk n d with
  | none => none
  | some m =>
    match t.GetVoxelChunk m with
    | none => none
    | some nc =>
      match HasChunkHigherRes t nc (e.InvertTransitionDirection d) with
      | .error _ => none
      | .ok b => if decide (t.Depth m > t.Depth n) ≠ b then some (.UpdateChunk m true) else none

/-- The mismatch requests of all six directions, in direction order. -/
def MismatchRequests (e : Engine) (t : ChunkOctree) (n : NodeId) : List Event :=
  allDirections.filterMap (MismatchRequest e t n)

/-- The value the loop of Update writes to the flag of direction `i`. -/
def FlagValue (t : ChunkOctree) (n : NodeId) (i : TransitionDirection) : Bool :=
  match t.GetAdjacentChunk n i with
  | some m => decide (t.Depth m < t.Depth n)
  | none => false

/-- Pool reuse: `Delete()` followed by `Init(NewOctree)` on the same object. -/
def Reuse (t : ChunkOctree) (NewOctree : Option NodeId) (c : AVoxelChunk) :
    Except Fault AVoxelChunk :=
  match Delete c with
  | .error f => .error f
  | .ok o => (Init t NewOctree o.chunk).map fun o1 => o1.chunk

/-- One foliage task per (grass type, variety) pair of the world, by type index
and then variety order, each with its type index, the staged section, the
voxel size, the node's minimal corner and the constant 10. -/
def ExpectedFoliageTasks (t : ChunkOctree) (r : VoxelRender) (n : NodeId) (c : AVoxelChunk) :
    List FAsyncFoliageTask :=
  (r.World.GrassTypes.enumFrom 0).flatMap fun p =>
    p.2.GrassVarieties.map fun v =>
      { Section := c.Section
        GrassVariety := v
        GrassTypeIndex := p.1
        VoxelSize := r.World.VoxelSize
        ChunkPosition := t.GetMinimalCornerPosition n
        Arg6 := 10 }

/-- The component the specification asks for from a task with at least one
instance: configured from the task's grass variety, seeded from the mesh and
chunk names, and fed the task's instance buffer, cluster tree and occlusion
layer count. -/
def ComponentOfTask (e : Engine) (c : AVoxelChunk) (task : FAsyncFoliageTask) :
    UHierarchicalInstancedStaticMeshComponent :=
  { StaticMesh := task.GrassVariety.GrassMesh
    MinLOD := task.GrassVariety.MinLOD
    bReceivesDecals := task.GrassVariety.bReceivesDecals
    InstancingRandomSeed := FolSeed e task.GrassVariety.GrassMesh.Name c.Name
    LightingChannels := task.GrassVariety.LightingChannels
    InstanceStartCullDistance := task.GrassVariety.StartCullDistance
    InstanceEndCullDistance := task.GrassVariety.EndCullDistance
    InstanceBuffer := (e.FoliageWork task).InstanceBuffer
    ClusterTree := (e.FoliageWork task).ClusterTree
    OcclusionLayerNum := (e.FoliageWork task).OutOcclusionLayerNum }

/-- Whether a completed task holds at least one instance. -/
def HasInstances (e : Engine) (task : FAsyncFoliageTask) : Bool :=
  decide (1 ≤ (e.FoliageWork task).InstanceBuffer.length)

/-- The relation between the two mesh-build members that CreateBuilder relies
on: a null task handle comes with a null builder. -/
def BuilderInv (c : AVoxelChunk) : Prop :=
  c.MeshBuilder = none → c.Builder = none

/-- What a history says about mesh sections: the section staged last, the
section applied last by ApplyNewMesh, and whether no mesh completion has
staged a section since that apply. -/
structure MeshTrace where
  staged : FProcMeshSection
  applied : Option FProcMeshSection
  appliedIsLatest : Bool
  deriving DecidableEq

/-- The section the first `SetProcMeshSection(0, ...)` among the events pushes
to the mesh component. -/
def pushedSection : List Event → Option FProcMeshSection
  | [] => none
  | .SetProcMeshSection 0 sec :: _ => some sec
  | _ :: evs => pushedSection evs

/-- How one call of a history changes what is staged and applied:
`OnMeshComplete(s)` stages `s`; `ApplyNewMesh()` applies the section it pushes;
`Update(false)` produces, stages and applies the section it pushes; no other
call stages or applies by ApplyNewMesh. -/
def observeCall (g : MeshTrace) (k : Call) (ev : List Event) : MeshTrace :=
  match k with
  | .OnMeshComplete sec => { g with staged := sec, appliedIsLatest := false }
  | .ApplyNewMesh =>
    match pushedSection ev with
    | some sec => { g with applied := some sec, appliedIsLatest := true }
    | none => g
  | .Update false =>
    match pushedSection ev with
    | some sec => { staged := sec, applied := some sec, appliedIsLatest := true }
    | none => g
  | _ => g

/-- The staged and applied sections after a history that starts at the
constructor, where the member `Section` is the empty section and nothing has
been applied. -/
def meshTrace (h : List (Call × List Event)) : MeshTrace :=
  h.foldl (fun g p => observeCall g p.1 p.2)
    { staged := FProcMeshSection.empty, applied := none, appliedIsLatest := false }

/-- The chunk agrees with a reading of its history: `Section` is the staged
section, and the applied section is the staged one when nothing was staged
since the apply. -/
def MeshInv (c : AVoxelChunk) (g : MeshTrace) : Prop :=
  c.Section = g.staged ∧ (g.appliedIsLatest = true → g.applied = some g.staged)

/-! ## Theorems -/

/-- The function `RefreshFlags` only writes the flag array. -/
theorem RefreshFlags_fields (t : ChunkOctree) (n : NodeId) (c : AVoxelChunk) :
    (RefreshFlags t n c).CurrentOctree = c.CurrentOctree ∧
    (RefreshFlags t n c).Render = c.Render ∧
    (RefreshFlags t n c).MeshBuilder = c.MeshBuilder ∧
    (RefreshFlags t n c).Builder = c.Builder := by
  unfold RefreshFlags
  split <;> simp

/-- While a mesh task is outstanding, `Update(true)` returns false, sends
nothing and keeps the task and the builder. -/
theorem Update_async_busy (e : Engine) (t : ChunkOctree) (c : AVoxelChunk) (n : NodeId)
    (mb : FAsyncPolygonizerTask) (hn : c.CurrentOctree = some n)
    (hm : c.MeshBuilder = some mb) :
    Update e t true c = .ok { ret := false, chunk := RefreshFlags t n c, events := [] } := by
  have h := (RefreshFlags_fields t n c).2.2.1
  simp only [Update, hn]
  rw [hm] at h
  simp [h]

/-- Any number of `Update(true)` calls on a chunk with an outstanding mesh task
all return false, send nothing, and keep task and builder. -/
theorem UpdateAsyncSeq_busy (e : Engine) (ts : List ChunkOctree) :
    ∀ (c : AVoxelChunk) (n : NodeId) (mb : FAsyncPolygonizerTask),
      c.CurrentOctree = some n → c.MeshBuilder = some mb →
      ∃ c1, UpdateAsyncSeq e ts c = .ok (List.replicate ts.length (false, []), c1) ∧
        c1.MeshBuilder = some mb ∧ c1.Builder = c.Builder := by
  induction ts with
  | nil => intro c n mb _ hm; exact ⟨c, rfl, hm, rfl⟩
  | cons t ts ih =>
    intro c n mb hn hm
    obtain ⟨f1, _, f3, f4⟩ := RefreshFlags_fields t n c
    obtain ⟨c1, h1, h2, h3⟩ := ih (RefreshFlags t n c) n mb (f1.trans hn) (f3.trans hm)
    refine ⟨c1, ?_, h2, h3.trans f4⟩
    simp [UpdateAsyncSeq, Update_async_busy e t c n mb hn hm, h1, List.replicate_succ]

/-- With no task and no builder, `Update(true)` on a bound chunk creates the
builder, creates and starts the task and returns true. -/
theorem Update_async_idle (e : Engine) (t : ChunkOctree) (c : AVoxelChunk) (n : NodeId)
    (r : VoxelRender) (hn : c.CurrentOctree = some n) (hr : c.Render = some r)
    (hm : c.MeshBuilder = none) (hb : c.Builder = none) :
    Update e t true c = .ok
      { ret := true
        chunk := { RefreshFlags t n c with
          Builder := some (NewPolygonizer t n r (RefreshFlags t n c).ChunkHasHigherRes)
          MeshBuilder := some ⟨some (NewPolygonizer t n r (RefreshFlags t n c).ChunkHasHigherRes)⟩ }
        events := [.StartMeshTask
          ⟨some (NewPolygonizer t n r (RefreshFlags t n c).ChunkHasHigherRes)⟩] } := by
  obtain ⟨f1, f2, f3, f4⟩ := RefreshFlags_fields t n c
  rw [hn] at f1; rw [hr] at f2; rw [hm] at f3; rw [hb] at f4
  simp [Update, hn, f3, CreateBuilder, f4, f1, f2]

/-- C1 (at most one outstanding mesh task): on a bound chunk with no mesh task
and no builder, of `n >= 1` consecutive `Update(true)` calls (the tree may
change between calls) the first returns true and starts exactly one mesh task;
every later call returns false and sends nothing, and after the last call the
task handle and the builder are still those the first call created. -/
theorem C1_at_most_one_mesh_task (e : Engine) (t : ChunkOctree) (ts : List ChunkOctree)
    (c : AVoxelChunk) (n : NodeId) (r : VoxelRender)
    (hn : c.CurrentOctree = some n) (hr : c.Render = some r)
    (hm : c.MeshBuilder = none) (hb : c.Builder = none) :
    ∃ o c1,
      Update e t true c = .ok o ∧ o.ret = true ∧
      o.events = [.StartMeshTask ⟨some (NewPolygonizer t n r (RefreshFlags t n c).ChunkHasHigherRes)⟩] ∧
      o.chunk.MeshBuilder = some ⟨some (NewPolygonizer t n r (RefreshFlags t n c).ChunkHasHigherRes)⟩ ∧
      o.chunk.Builder = some (NewPolygonizer t n r (RefreshFlags t n c).ChunkHasHigherRes) ∧
      UpdateAsyncSeq e (t :: ts) c =
        .ok ((true, o.events) :: List.replicate ts.length (false, []), c1) ∧
      c1.MeshBuilder = o.chunk.MeshBuilder ∧ c1.Builder = o.chunk.Builder := by
  have h0 := Update_async_idle e t c n r hn hr hm hb
  obtain ⟨f1, _, _, _⟩ := RefreshFlags_fields t n c
  obtain ⟨c1, h1, h2, h3⟩ := UpdateAsyncSeq_busy e ts
    { RefreshFlags t n c with
      Builder := some (NewPolygonizer t n r (RefreshFlags t n c).ChunkHasHigherRes)
      MeshBuilder := some ⟨some (NewPolygonizer t n r (RefreshFlags t n c).ChunkHasHigherRes)⟩ }
    n _ (f1.trans hn) rfl
  refine ⟨_, c1, h0, rfl, rfl, rfl, rfl, ?_, h2, h3⟩
  simp [UpdateAsyncSeq, h0, h1]

/-- C1 at the sample chunk of node 0 and three calls. -/
theorem C1_at_most_one_mesh_task_witness :
    ∃ o c1,
      Update sampleEngine sampleTree true (sampleChunk 0) = .ok o ∧ o.ret = true ∧
      o.events = [.StartMeshTask ⟨some (NewPolygonizer sampleTree 0 sampleRender
        (RefreshFlags sampleTree 0 (sampleChunk 0)).ChunkHasHigherRes)⟩] ∧
      o.chunk.MeshBuilder = some ⟨some (NewPolygonizer sampleTree 0 sampleRender
        (RefreshFlags sampleTree 0 (sampleChunk 0)).ChunkHasHigherRes)⟩ ∧
      o.chunk.Builder = some (NewPolygonizer sampleTree 0 sampleRender
        (RefreshFlags sampleTree 0 (sampleChunk 0)).ChunkHasHigherRes) ∧
      UpdateAsyncSeq sampleEngine (sampleTree :: [sampleTree, sampleTree]) (sampleChunk 0) =
        .ok ((true, o.events) :: List.replicate [sampleTree, sampleTree].length (false, []), c1) ∧
      c1.MeshBuilder = o.chunk.MeshBuilder ∧ c1.Builder = o.chunk.Builder :=
  C1_at_most_one_mesh_task sampleEngine sampleTree [sampleTree, sampleTree] (sampleChunk 0) 0
    sampleRender rfl rfl rfl rfl

/-- C2 (root-depth neighbour flags): for a chunk bound to a node of depth 0,
`HasChunkHigherRes` returns false in every direction whatever the cached
flags are; for a node of depth other than 0 it returns the cached flag. -/
theorem C2_root_depth_flags (t : ChunkOctree) (c : AVoxelChunk) (n : NodeId)
    (d : TransitionDirection) (hn : c.CurrentOctree = some n) :
    (t.Depth n = 0 → HasChunkHigherRes t c d = .ok false) ∧
    (t.Depth n ≠ 0 → HasChunkHigherRes t c d = .ok (c.ChunkHasHigherRes d)) := by
  constructor
  · intro h; simp [HasChunkHigherRes, hn, h]
  · intro h; simp [HasChunkHigherRes, hn, h]

/-- C2 at chunks with every cached flag set: depth 0 reports false, depth 1
reports the flag. -/
theorem C2_root_depth_flags_witness :
    HasChunkHigherRes rootTree (flaggedChunk 0) 3 = .ok false ∧
    HasChunkHigherRes sampleTree (flaggedChunk 1) 3 = .ok true :=
  ⟨(C2_root_depth_flags rootTree (flaggedChunk 0) 0 3 rfl).1 rfl,
   (C2_root_depth_flags sampleTree (flaggedChunk 1) 1 3 rfl).2 (by decide)⟩

/-- One pass of the loop body of CheckTransitions sends the mismatch request of
its direction, when every adjacent node has a bound chunk. -/
theorem CheckTransition_eq (e : Engine) (t : ChunkOctree) (c : AVoxelChunk) (n : NodeId)
    (hn : c.CurrentOctree = some n)
    (hnb : ∀ d m, t.GetAdjacentChunk n d = some m →
      ∃ nc k, t.GetVoxelChunk m = some nc ∧ nc.CurrentOctree = some k)
    (d : TransitionDirection) :
    CheckTransition e t c d = .ok (MismatchRequest e t n d).toList := by
  unfold CheckTransition MismatchRequest
  simp only [hn]
  cases hadj : t.GetAdjacentChunk n d with
  | none => simp
  | some m =>
    obtain ⟨nc, k, h1, h2⟩ := hnb d m hadj
    simp only [h1, HasChunkHigherRes, h2]
    by_cases hb : decide (t.Depth m > t.Depth n) = (t.Depth k != 0 && nc.ChunkHasHigherRes
        (e.InvertTransitionDirection d))
    · simp [hb]
    · simp [hb]

/-- The loop of CheckTransitions sends the mismatch requests of its directions
in order. -/
theorem CheckTransitionsLoop_eq (e : Engine) (t : ChunkOctree) (c : AVoxelChunk) (n : NodeId)
    (hn : c.CurrentOctree = some n)
    (hnb : ∀ d m, t.GetAdjacentChunk n d = some m →
      ∃ nc k, t.GetVoxelChunk m = some nc ∧ nc.CurrentOctree = some k)
    (l : List TransitionDirection) :
    CheckTransitionsLoop e t c l = .ok (l.filterMap (MismatchRequest e t n)) := by
  induction l with
  | nil => rfl
  | cons d ds ih =>
    simp only [CheckTransitionsLoop, CheckTransition_eq e t c n hn hnb d, ih]
    cases hq : MismatchRequest e t n d <;> simp [List.filterMap_cons, hq]

/-- C3 (CheckTransitions issues exactly the mismatch remeshes): on a bound chunk
whose adjacent nodes all have a bound chunk, with transitions enabled the
requests sent are, in direction order, one async remesh per direction with an
adjacent node and a mismatch, and nothing else; with transitions disabled
nothing is sent. -/
theorem C3_check_transitions_requests (e : Engine) (t : ChunkOctree) (c : AVoxelChunk)
    (n : NodeId) (r : VoxelRender)
    (hn : c.CurrentOctree = some n) (hr : c.Render = some r)
    (hnb : r.World.bComputeTransitions = true → ∀ d m, t.GetAdjacentChunk n d = some m →
      ∃ nc k, t.GetVoxelChunk m = some nc ∧ nc.CurrentOctree = some k) :
    CheckTransitions e t c = .ok
      { ret := ()
        chunk := c
        events := if r.World.bComputeTransitions then MismatchRequests e t n else [] } := by
  unfold CheckTransitions
  simp only [hr]
  cases hb : r.World.bComputeTransitions with
  | false => simp
  | true =>
    simp [CheckTransitionsLoop_eq e t c n hn (hnb hb) allDirections, MismatchRequests]

/-- C3 at the chunk of node 1 of the bound sample tree: its neighbour in
direction 1 is deeper and does not record it, so one request is sent. -/
theorem C3_check_transitions_requests_witness :
    CheckTransitions sampleEngine boundTree (sampleChunk 1) = .ok
      { ret := ()
        chunk := sampleChunk 1
        events := if sampleRender.World.bComputeTransitions then
          MismatchRequests sampleEngine boundTree 1 else [] } :=
  C3_check_transitions_requests sampleEngine boundTree (sampleChunk 1) 1 sampleRender rfl rfl
    (fun _ _ m _ => ⟨sampleChunk m, m, rfl, rfl⟩)

/-- The loop body of Update overwrites the flag of its direction. -/
theorem UpdateFlag_eq (t : ChunkOctree) (n : NodeId) (f : TransitionDirection → Bool)
    (i : TransitionDirection) :
    UpdateFlag t n f i = Function.update f i (FlagValue t n i) := by
  unfold UpdateFlag FlagValue
  cases t.GetAdjacentChunk n i <;> rfl

/-- After the loop over `l`, the flags of the directions in `l` hold the values
computed from the tree and the others are untouched. -/
theorem foldl_UpdateFlag (t : ChunkOctree) (n : NodeId) (l : List TransitionDirection) :
    ∀ (f : TransitionDirection → Bool) (j : TransitionDirection),
      (l.foldl (UpdateFlag t n) f) j = if j ∈ l then FlagValue t n j else f j := by
  induction l with
  | nil => intro f j; simp
  | cons i l ih =>
    intro f j
    rw [List.foldl_cons, ih, UpdateFlag_eq]
    by_cases hj : j ∈ l
    · simp [hj]
    · by_cases hji : j = i
      · subst hji; simp [hj]
      · simp [hj, hji, Function.update_noteq hji]

/-- The loop of Update sets every one of the six flags. -/
theorem UpdateFlags_apply (t : ChunkOctree) (n : NodeId) (f : TransitionDirection → Bool)
    (j : TransitionDirection) : UpdateFlags t n f j = FlagValue t n j := by
  unfold UpdateFlags
  rw [foldl_UpdateFlag]
  have : j ∈ allDirections := by unfold allDirections; fin_cases j <;> simp
  simp [this]

/-- Result of `Update(false)` on a bound chunk: the section the polygonizer produces from
the refreshed flags is stored and applied, task and builder end null. -/
theorem Update_sync (e : Engine) (t : ChunkOctree) (c : AVoxelChunk) (n : NodeId)
    (r : VoxelRender) (hn : c.CurrentOctree = some n) (hr : c.Render = some r) :
    Update e t false c = .ok
      { ret := true
        chunk := { RefreshFlags t n c with
          MeshBuilder := none
          Builder := none
          Section := e.CreateSection
            (NewPolygonizer t n r (RefreshFlags t n c).ChunkHasHigherRes)
          PrimaryMesh := some (e.CreateSection
            (NewPolygonizer t n r (RefreshFlags t n c).ChunkHasHigherRes)) }
        events := [.AddFoliageUpdate,
          .SetProcMeshSection 0 (e.CreateSection
            (NewPolygonizer t n r (RefreshFlags t n c).ChunkHasHigherRes)),
          .UpdateComponentInNavOctree] } := by
  obtain ⟨f1, f2, _, _⟩ := RefreshFlags_fields t n c
  rw [hn] at f1; rw [hr] at f2
  simp [Update, hn, CreateBuilder, f1, f2, ApplyNewMesh]

/-- A bound chunk whose builder is null whenever its task is null completes
`Update`, stays bound to its node, and holds the refreshed flags. -/
theorem Update_flags (e : Engine) (t : ChunkOctree) (bAsync : Bool) (c : AVoxelChunk)
    (n : NodeId) (r : VoxelRender) (hn : c.CurrentOctree = some n) (hr : c.Render = some r)
    (hb : c.MeshBuilder = none → c.Builder = none) :
    ∃ o, Update e t bAsync c = .ok o ∧ o.chunk.CurrentOctree = some n ∧
      o.chunk.ChunkHasHigherRes = (RefreshFlags t n c).ChunkHasHigherRes := by
  obtain ⟨f1, f2, f3, f4⟩ := RefreshFlags_fields t n c
  cases bAsync with
  | true =>
    cases hm : c.MeshBuilder with
    | none =>
      exact ⟨_, Update_async_idle e t c n r hn hr hm (hb hm), f1.trans hn, rfl⟩
    | some mb =>
      exact ⟨_, Update_async_busy e t c n mb hn hm, f1.trans hn, rfl⟩
  | false =>
    exact ⟨_, Update_sync e t c n r hn hr, f1.trans hn, rfl⟩

/-- What a chunk reports right after `Update`: false at depth 0, otherwise
whether the adjacent node of that direction exists and has a smaller depth. -/
theorem FlagAfterUpdate_eq (e : Engine) (t : ChunkOctree) (bAsync : Bool) (c : AVoxelChunk)
    (n : NodeId) (r : VoxelRender) (hn : c.CurrentOctree = some n) (hr : c.Render = some r)
    (hb : c.MeshBuilder = none → c.Builder = none) (d : TransitionDirection) :
    FlagAfterUpdate e t bAsync c d = .ok (t.Depth n != 0 && FlagValue t n d) := by
  obtain ⟨o, h1, h2, h3⟩ := Update_flags e t bAsync c n r hn hr hb
  unfold FlagAfterUpdate
  simp only [h1, HasChunkHigherRes, h2, h3]
  by_cases h0 : t.Depth n = 0
  · simp [h0]
  · simp [RefreshFlags, h0, UpdateFlags_apply]

/-- C4 as stated fails: in the sample tree the chunk of node 0 (depth 2) has
the depth-1 node 1 adjacent in direction 0 and reports true for direction 0
after `Update(true)`, where the claim says false; the depth-1 chunk of node 1
reports false toward the depth-2 node, where the claim says true. -/
theorem C4_flag_direction_counterexample :
    FlagAfterUpdate sampleEngine sampleTree true (sampleChunk 0) 0 = .ok true ∧
    FlagAfterUpdate sampleEngine sampleTree true (sampleChunk 1) 1 = .ok false := by
  constructor <;> rfl

/-- C4 amended (direction of the neighbour flag): for two mutually adjacent
nodes at depths d1 < d2, right after `Update` (async or not) the deeper chunk
reports true toward the shallower node and the shallower chunk reports false
toward the deeper node. -/
theorem C4_flag_direction (e : Engine) (t : ChunkOctree) (bAsync : Bool)
    (cA cB : AVoxelChunk) (nA nB : NodeId) (rA rB : VoxelRender)
    (dAB dBA : TransitionDirection)
    (hA : cA.CurrentOctree = some nA) (hAr : cA.Render = some rA)
    (hAb : cA.MeshBuilder = none → cA.Builder = none)
    (hB : cB.CurrentOctree = some nB) (hBr : cB.Render = some rB)
    (hBb : cB.MeshBuilder = none → cB.Builder = none)
    (adjAB : t.GetAdjacentChunk nA dAB = some nB)
    (adjBA : t.GetAdjacentChunk nB dBA = some nA)
    (hlt : t.Depth nA < t.Depth nB) :
    FlagAfterUpdate e t bAsync cB dBA = .ok true ∧
    FlagAfterUpdate e t bAsync cA dAB = .ok false := by
  rw [FlagAfterUpdate_eq e t bAsync cB nB rB hB hBr hBb,
    FlagAfterUpdate_eq e t bAsync cA nA rA hA hAr hAb]
  have h0 : t.Depth nB ≠ 0 := by omega
  have h1 : ¬ t.Depth nB < t.Depth nA := by omega
  simp [FlagValue, adjAB, adjBA, hlt, h0, h1]

/-- C4 amended at the sample tree: node 1 (depth 1) and node 0 (depth 2). -/
theorem C4_flag_direction_witness :
    FlagAfterUpdate sampleEngine sampleTree false (sampleChunk 0) 0 = .ok true ∧
    FlagAfterUpdate sampleEngine sampleTree false (sampleChunk 1) 1 = .ok false :=
  C4_flag_direction sampleEngine sampleTree false (sampleChunk 1) (sampleChunk 0) 1 0
    sampleRender sampleRender 1 0 rfl rfl (fun _ => rfl) rfl rfl (fun _ => rfl) rfl rfl
    (by decide)

/-- Result of `Delete()` on a chunk with a render manager: the chunk after it and the calls
it makes. -/
theorem Delete_eq (c : AVoxelChunk) (r : VoxelRender) (hr : c.Render = some r) :
    Delete c = .ok
      { ret := ()
        chunk := { c with
          MeshBuilder := none
          Builder := none
          FoliageTasks := []
          PrimaryMesh := some FProcMeshSection.empty
          FoliageComponents := []
          Render := none
          CurrentOctree := none }
        events := [.SetProcMeshSection 0 FProcMeshSection.empty]
          ++ c.FoliageComponents.map Event.DestroyComponent ++ [.SetChunkAsInactive] } := by
  simp [Delete, DeleteTasks, hr]

/-- C5 (state after Delete): on a chunk with its render manager set, `Delete()`
pushes the empty section to the mesh component, destroys every foliage
component and empties the set, leaves task handle, builder and foliage task
list null or empty, hands the chunk to the inactive pool exactly once, and
releases the render and node bindings. -/
theorem C5_state_after_delete (c : AVoxelChunk) (r : VoxelRender) (hr : c.Render = some r) :
    ∃ o, Delete c = .ok o ∧
      o.chunk.PrimaryMesh = some FProcMeshSection.empty ∧
      o.chunk.FoliageComponents = [] ∧
      o.chunk.MeshBuilder = none ∧ o.chunk.Builder = none ∧
      o.chunk.FoliageTasks = [] ∧
      o.chunk.Render = none ∧ o.chunk.CurrentOctree = none ∧
      o.events = [.SetProcMeshSection 0 FProcMeshSection.empty]
        ++ c.FoliageComponents.map Event.DestroyComponent ++ [.SetChunkAsInactive] ∧
      o.events.count .SetChunkAsInactive = 1 := by
  refine ⟨_, Delete_eq c r hr, rfl, rfl, rfl, rfl, rfl, rfl, rfl, rfl, ?_⟩
  have h : ∀ l : List UHierarchicalInstancedStaticMeshComponent,
      (l.map Event.DestroyComponent).count Event.SetChunkAsInactive = 0 := by
    intro l
    induction l with
    | nil => rfl
    | cons a l ih => simp [List.count_cons, ih]
  simp [List.count_append, List.count_cons, h]

/-- C5 at a sample chunk holding a task, a builder, a foliage task and a
foliage component. -/
theorem C5_state_after_delete_witness :
    ∃ o, Delete busyChunk = .ok o ∧
      o.chunk.PrimaryMesh = some FProcMeshSection.empty ∧
      o.chunk.FoliageComponents = [] ∧
      o.chunk.MeshBuilder = none ∧ o.chunk.Builder = none ∧
      o.chunk.FoliageTasks = [] ∧
      o.chunk.Render = none ∧ o.chunk.CurrentOctree = none ∧
      o.events = [.SetProcMeshSection 0 FProcMeshSection.empty]
        ++ busyChunk.FoliageComponents.map Event.DestroyComponent ++ [.SetChunkAsInactive] ∧
      o.events.count .SetChunkAsInactive = 1 :=
  C5_state_after_delete busyChunk sampleRender rfl

/-- C6 as stated fails: the same object rebound to node 1 by `Delete(); Init(1)`
reports true for direction 0 when its previous binding ran `Update` next to a
shallower node, and false when it did not: the cached flag survives the reuse. -/
theorem C6_pool_reuse_counterexample :
    (chunkOf (run sampleEngine sampleTree
        [.Init (some 0), .Update false, .Delete, .Init (some 1)]
        (AVoxelChunk.new "Chunk"))).map (fun c => HasChunkHigherRes sampleTree c 0)
      = some (.ok true) ∧
    (chunkOf (run sampleEngine sampleTree
        [.Init (some 0), .Delete, .Init (some 1)]
        (AVoxelChunk.new "Chunk"))).map (fun c => HasChunkHigherRes sampleTree c 0)
      = some (.ok false) := by
  constructor <;> rfl

/-- C6 amended (pool reuse): `Delete()` then `Init(n)` from any two bound states
of the same object completes; the resulting state is bound to `n` and its
render manager, placed at the minimal corner of `n`, with null task and
builder, no foliage tasks or components and the empty section applied, and it
carries over the cached neighbour flags, the staged section, the
completed-foliage counter, the timer handle and the mesh material of the
state before `Delete`; so the two results are the same state exactly when the
two states agree on these five members. -/
theorem C6_pool_reuse (t : ChunkOctree) (n : NodeId) (s1 s2 : AVoxelChunk)
    (r1 r2 : VoxelRender) (h1 : s1.Render = some r1) (h2 : s2.Render = some r2)
    (hname : s1.Name = s2.Name) :
    ∃ c1 c2, Reuse t (some n) s1 = .ok c1 ∧ Reuse t (some n) s2 = .ok c2 ∧
      (c1 = c2 ↔
        (s1.ChunkHasHigherRes = s2.ChunkHasHigherRes ∧ s1.Section = s2.Section ∧
         s1.CompletedFoliageTaskCount = s2.CompletedFoliageTaskCount ∧
         s1.DeleteTimer = s2.DeleteTimer ∧
         s1.PrimaryMeshMaterial = s2.PrimaryMeshMaterial)) ∧
      c1.CurrentOctree = some n ∧ c1.Render = some (t.Render n) ∧
      c1.MeshBuilder = none ∧ c1.Builder = none ∧
      c1.FoliageTasks = [] ∧ c1.FoliageComponents = [] ∧
      c1.PrimaryMesh = some FProcMeshSection.empty ∧
      c1.RelativeLocation = t.GetMinimalCornerPosition n ∧
      c1.RelativeRotation = ⟨0, 0, 0⟩ ∧ c1.RelativeScale3D = ⟨1, 1, 1⟩ ∧
      c1.ChunkHasHigherRes = s1.ChunkHasHigherRes ∧
      c1.Section = s1.Section ∧
      c1.CompletedFoliageTaskCount = s1.CompletedFoliageTaskCount ∧
      c1.DeleteTimer = s1.DeleteTimer ∧
      c1.PrimaryMeshMaterial = s1.PrimaryMeshMaterial := by
  refine ⟨{ s1 with
      MeshBuilder := none
      Builder := none
      FoliageTasks := []
      PrimaryMesh := some FProcMeshSection.empty
      FoliageComponents := []
      Render := some (t.Render n)
      CurrentOctree := some n
      RelativeLocation := t.GetMinimalCornerPosition n
      RelativeRotation := ⟨0, 0, 0⟩
      RelativeScale3D := ⟨1, 1, 1⟩ },
    { s2 with
      MeshBuilder := none
      Builder := none
      FoliageTasks := []
      PrimaryMesh := some FProcMeshSection.empty
      FoliageComponents := []
      Render := some (t.Render n)
      CurrentOctree := some n
      RelativeLocation := t.GetMinimalCornerPosition n
      RelativeRotation := ⟨0, 0, 0⟩
      RelativeScale3D := ⟨1, 1, 1⟩ },
    ?_, ?_, ⟨?_, ?_⟩, rfl, rfl, rfl, rfl, rfl, rfl, rfl, rfl, rfl, rfl, rfl, rfl, rfl, rfl, rfl⟩
  · simp only [Reuse, Delete_eq s1 r1 h1, Init, Except.map]
  · simp only [Reuse, Delete_eq s2 r2 h2, Init, Except.map]
  · intro h
    exact ⟨(congrArg AVoxelChunk.ChunkHasHigherRes h :), (congrArg AVoxelChunk.Section h :),
      (congrArg AVoxelChunk.CompletedFoliageTaskCount h :),
      (congrArg AVoxelChunk.DeleteTimer h :), (congrArg AVoxelChunk.PrimaryMeshMaterial h :)⟩
  · rintro ⟨a, b, c, d, m⟩
    simp only [hname, a, b, c, d, m]

/-- C6 amended at the busy sample chunk and the idle sample chunk of node 0,
which agree on the five carried-over members, rebound to node 1: the two
results are the same state. -/
theorem C6_pool_reuse_witness :
    ∃ c, Reuse sampleTree (some 1) busyChunk = .ok c ∧
      Reuse sampleTree (some 1) (sampleChunk 0) = .ok c ∧
      c.CurrentOctree = some 1 ∧ c.Render = some (sampleTree.Render 1) ∧
      c.ChunkHasHigherRes = busyChunk.ChunkHasHigherRes ∧
      c.Section = busyChunk.Section ∧
      c.CompletedFoliageTaskCount = busyChunk.CompletedFoliageTaskCount ∧
      c.DeleteTimer = busyChunk.DeleteTimer ∧
      c.PrimaryMeshMaterial = busyChunk.PrimaryMeshMaterial :=
  match C6_pool_reuse sampleTree 1 busyChunk (sampleChunk 0) sampleRender sampleRender
      rfl rfl rfl with
  | ⟨c1, _, g1, g2, g3, g4, g5, _, _, _, _, _, _, _, _, g6, g7, g8, g9, g10⟩ =>
    ⟨c1, g1, (g3.mpr ⟨rfl, rfl, rfl, rfl, rfl⟩) ▸ g2, g4, g5, g6, g7, g8, g9, g10⟩

/-- Every task the loops of UpdateFoliage create is built over `Section`. -/
theorem FoliageTasksFrom_section (t : ChunkOctree) (r : VoxelRender) (n : NodeId)
    (c : AVoxelChunk) (gs : List UGrassType) :
    ∀ (i : Nat) (task : FAsyncFoliageTask),
      task ∈ FoliageTasksFrom t r n c i gs → task.Section = c.Section := by
  induction gs with
  | nil => intro i task h; simp [FoliageTasksFrom] at h
  | cons g gs ih =>
    intro i task h
    simp only [FoliageTasksFrom, List.mem_append] at h
    rcases h with h | h
    · simp only [FoliageTasksOfType, List.mem_map] at h
      obtain ⟨v, _, rfl⟩ := h
      rfl
    · exact ih (i + 1) task h

/-- The tasks `UpdateFoliage()` starts are all taken from its loops. -/
theorem UpdateFoliage_started (t : ChunkOctree) (c : AVoxelChunk) (o : Out Bool)
    (h : UpdateFoliage t c = .ok o) (task : FAsyncFoliageTask)
    (hs : Event.StartFoliageTask task ∈ o.events) : task.Section = c.Section := by
  unfold UpdateFoliage at h
  split at h
  · split at h
    · cases h
    · split at h
      · split at h
        · cases h; simp at hs
        · cases h
      · cases h
        simp only [List.mem_map] at hs
        obtain ⟨task1, h1, h2⟩ := hs
        cases h2
        exact FoliageTasksFrom_section t _ _ c _ 0 task h1
  · cases h; simp at hs

/-- C7 as stated fails: after a first mesh has been applied and a second one
has completed but not been applied, the mesh component holds the first
section while `UpdateFoliage()` builds all three foliage tasks over the second. -/
theorem C7_apply_before_foliage_counterexample :
    (chunkOf (run sampleEngine sampleTree
        [.Init (some 0), .Update true, .OnMeshComplete sectionA, .ApplyNewMesh,
         .Update true, .OnMeshComplete sectionB, .UpdateFoliage]
        (AVoxelChunk.new "Chunk"))).map
        (fun c => (c.PrimaryMesh, c.FoliageTasks.map fun task => task.Section))
      = some (some sectionA, [sectionB, sectionB, sectionB]) := by
  rfl

/-- C8 (Unload defers deletion): on a chunk with its render manager set,
`Unload()` leaves the mesh task, the builder and the foliage task list null or
empty, registers one transition check, then arms the timer once, not looping,
with callback Delete and the world's DeletionDelay, the timer handle being
stored in `DeleteTimer`; nothing else is called and no other member changes,
so the applied mesh, the foliage components and the render and node bindings
are as before. -/
theorem C8_unload_defers_delete (c : AVoxelChunk) (r : VoxelRender) (NewHandle : FTimerHandle)
    (hr : c.Render = some r) :
    ∃ o, Unload NewHandle c = .ok o ∧
      o.chunk = { c with MeshBuilder := none, Builder := none, FoliageTasks := []
                         DeleteTimer := NewHandle } ∧
      o.chunk.MeshBuilder = none ∧ o.chunk.Builder = none ∧ o.chunk.FoliageTasks = [] ∧
      o.events = [.AddTransitionCheck, .SetTimer .Delete r.World.DeletionDelay false] ∧
      o.chunk.PrimaryMesh = c.PrimaryMesh ∧
      o.chunk.FoliageComponents = c.FoliageComponents ∧
      o.chunk.Render = c.Render ∧ o.chunk.CurrentOctree = c.CurrentOctree := by
  refine ⟨{ ret := (), chunk := { DeleteTasks c with DeleteTimer := NewHandle },
            events := [.AddTransitionCheck, .SetTimer .Delete r.World.DeletionDelay false] },
    ?_, rfl, rfl, rfl, rfl, rfl, rfl, rfl, rfl, rfl⟩
  simp [Unload, DeleteTasks, hr]

/-- C8 at the busy sample chunk. -/
theorem C8_unload_defers_delete_witness :
    ∃ o, Unload ⟨7⟩ busyChunk = .ok o ∧
      o.chunk = { busyChunk with MeshBuilder := none, Builder := none, FoliageTasks := []
                                 DeleteTimer := ⟨7⟩ } ∧
      o.chunk.MeshBuilder = none ∧ o.chunk.Builder = none ∧ o.chunk.FoliageTasks = [] ∧
      o.events = [.AddTransitionCheck, .SetTimer .Delete sampleRender.World.DeletionDelay false] ∧
      o.chunk.PrimaryMesh = busyChunk.PrimaryMesh ∧
      o.chunk.FoliageComponents = busyChunk.FoliageComponents ∧
      o.chunk.Render = busyChunk.Render ∧ o.chunk.CurrentOctree = busyChunk.CurrentOctree :=
  C8_unload_defers_delete busyChunk sampleRender ⟨7⟩ rfl

/-- The conversion to `int32` gives 0 only for a CRC that is 0 modulo 2^32. -/
theorem toInt32_eq_zero (x : Nat) : toInt32 x = 0 ↔ x % 2 ^ 32 = 0 := by
  unfold toInt32
  split <;> omega

/-- The seeds of the components `ApplyNewFoliage()` creates from a task list. -/
theorem filterMap_component_seed (e : Engine) (c : AVoxelChunk) (l : List FAsyncFoliageTask) :
    (l.filterMap (FoliageComponentOfTask e c)).map (fun comp => comp.InstancingRandomSeed) =
      (l.filter fun task => (e.FoliageWork task).InstanceBuffer.length != 0).map
        (fun task => FolSeed e task.GrassVariety.GrassMesh.Name c.Name) := by
  induction l with
  | nil => rfl
  | cons a l ih =>
    by_cases h : (e.FoliageWork a).InstanceBuffer.length = 0
    · simp [List.filterMap_cons, FoliageComponentOfTask, h, List.filter_cons] at ih ⊢
      exact ih
    · simp [List.filterMap_cons, FoliageComponentOfTask, h, List.filter_cons] at ih ⊢
      exact ih

/-- C9 (foliage seed is never zero): the seeds `ApplyNewFoliage()` assigns to
the components it creates are, in task order, `FolSeed` of the grass mesh name
and the chunk name for each task with at least one instance; and for every
pair of names `FolSeed` is not 0, equal to the CRC as `int32` when that is not
0 and to 1 otherwise. -/
theorem C9_foliage_seed_nonzero (e : Engine) (c : AVoxelChunk) :
    ((ApplyNewFoliage e c).chunk.FoliageComponents.map (fun comp => comp.InstancingRandomSeed) =
      (c.FoliageTasks.filter fun task => (e.FoliageWork task).InstanceBuffer.length != 0).map
        (fun task => FolSeed e task.GrassVariety.GrassMesh.Name c.Name)) ∧
    (∀ GrassMeshName ChunkName : String,
      FolSeed e GrassMeshName ChunkName ≠ 0 ∧
      FolSeed e GrassMeshName ChunkName =
        if toInt32 (e.StrCrc32 (GrassMeshName ++ ChunkName)) = 0 then 1
        else toInt32 (e.StrCrc32 (GrassMeshName ++ ChunkName))) := by
  constructor
  · simpa [ApplyNewFoliage] using filterMap_component_seed e { c with FoliageComponents := [] }
      c.FoliageTasks
  · intro m k
    unfold FolSeed
    by_cases h : toInt32 (e.StrCrc32 (m ++ k)) = 0
    · simp [h]
    · simp [h]

/-- The loops of UpdateFoliage create the expected tasks. -/
theorem FoliageTasksFrom_eq (t : ChunkOctree) (r : VoxelRender) (n : NodeId) (c : AVoxelChunk)
    (gs : List UGrassType) :
    ∀ i : Nat, FoliageTasksFrom t r n c i gs =
      (gs.enumFrom i).flatMap fun p =>
        p.2.GrassVarieties.map fun v =>
          ({ Section := c.Section
             GrassVariety := v
             GrassTypeIndex := p.1
             VoxelSize := r.World.VoxelSize
             ChunkPosition := t.GetMinimalCornerPosition n
             Arg6 := 10 } : FAsyncFoliageTask) := by
  induction gs with
  | nil => intro i; rfl
  | cons g gs ih =>
    intro i
    simp only [FoliageTasksFrom, List.enumFrom_cons, List.flatMap_cons, ih (i + 1)]
    rfl

/-- The number of tasks the loops of UpdateFoliage create. -/
theorem FoliageTasksFrom_length (t : ChunkOctree) (r : VoxelRender) (n : NodeId)
    (c : AVoxelChunk) (gs : List UGrassType) :
    ∀ i : Nat, (FoliageTasksFrom t r n c i gs).length =
      (gs.map fun g => g.GrassVarieties.length).sum := by
  induction gs with
  | nil => intro i; rfl
  | cons g gs ih =>
    intro i
    simp [FoliageTasksFrom, FoliageTasksOfType, ih (i + 1)]

/-- C10 (UpdateFoliage guard and fan-out): with a non-empty foliage task list
`UpdateFoliage()` returns false, changes nothing and submits nothing; with an
empty list on a bound chunk it returns true, the list becomes the expected
tasks (one per grass type and variety, in order), exactly these are started
on the foliage pool, and their number is the sum of the variety counts. -/
theorem C10_update_foliage (t : ChunkOctree) (c : AVoxelChunk) :
    (c.FoliageTasks ≠ [] → UpdateFoliage t c = .ok { ret := false, chunk := c, events := [] }) ∧
    (c.FoliageTasks = [] → ∀ (r : VoxelRender) (n : NodeId),
      c.Render = some r → c.CurrentOctree = some n →
      UpdateFoliage t c = .ok
        { ret := true
          chunk := { c with FoliageTasks := ExpectedFoliageTasks t r n c }
          events := (ExpectedFoliageTasks t r n c).map Event.StartFoliageTask } ∧
      (ExpectedFoliageTasks t r n c).length =
        (r.World.GrassTypes.map fun g => g.GrassVarieties.length).sum) := by
  constructor
  · intro h
    simp [UpdateFoliage, h]
  · intro h r n hr hn
    have he : ExpectedFoliageTasks t r n c = FoliageTasksFrom t r n c 0 r.World.GrassTypes := by
      rw [FoliageTasksFrom_eq]; rfl
    refine ⟨?_, ?_⟩
    · simp [UpdateFoliage, h, hr, hn, he]
    · rw [he, FoliageTasksFrom_length]

/-- C10 at the busy sample chunk (one task outstanding) and at the idle sample
chunk of node 0 (three tasks created for two plus one varieties). -/
theorem C10_update_foliage_witness :
    UpdateFoliage sampleTree busyChunk = .ok { ret := false, chunk := busyChunk, events := [] } ∧
    (UpdateFoliage sampleTree (sampleChunk 0) = .ok
        { ret := true
          chunk := { sampleChunk 0 with
            FoliageTasks := ExpectedFoliageTasks sampleTree sampleRender 0 (sampleChunk 0) }
          events := (ExpectedFoliageTasks sampleTree sampleRender 0 (sampleChunk 0)).map
            Event.StartFoliageTask } ∧
      (ExpectedFoliageTasks sampleTree sampleRender 0 (sampleChunk 0)).length =
        (sampleRender.World.GrassTypes.map fun g => g.GrassVarieties.length).sum) :=
  ⟨(C10_update_foliage sampleTree busyChunk).1 (by simp [busyChunk]),
   (C10_update_foliage sampleTree (sampleChunk 0)).2 rfl sampleRender 0 rfl rfl⟩

/-- A completion that is not the last one only increments the counter. -/
theorem OnFoliageComplete_below (c : AVoxelChunk)
    (hne : c.CompletedFoliageTaskCount + 1 ≠ (c.FoliageTasks.length : Int)) :
    OnFoliageComplete c =
      .ok { ret := ()
            chunk := { c with CompletedFoliageTaskCount := c.CompletedFoliageTaskCount + 1 }
            events := [] } := by
  simp [OnFoliageComplete, hne]

/-- The completion of the last task queues the apply request and resets the
counter. -/
theorem OnFoliageComplete_last (c : AVoxelChunk) (r : VoxelRender) (hr : c.Render = some r)
    (he : c.CompletedFoliageTaskCount + 1 = (c.FoliageTasks.length : Int)) :
    OnFoliageComplete c =
      .ok { ret := ()
            chunk := { c with CompletedFoliageTaskCount := 0 }
            events := [.AddApplyNewFoliage] } := by
  simp [OnFoliageComplete, he, OnAllFoliageComplete, hr]

/-- While fewer than all foliage tasks have completed, consecutive completions
only count. -/
theorem OnFoliageCompleteSeq_below (k : Nat) :
    ∀ (c : AVoxelChunk) (j : Nat), c.CompletedFoliageTaskCount = (j : Int) →
      j + k < c.FoliageTasks.length →
      OnFoliageCompleteSeq k c =
        .ok (List.replicate k [], { c with CompletedFoliageTaskCount := ((j + k : Nat) : Int) }) := by
  induction k with
  | zero =>
    intro c j hj _
    simp only [OnFoliageCompleteSeq, List.replicate_zero, Nat.add_zero, ← hj]
  | succ k ih =>
    intro c j hj hlt
    have hne : c.CompletedFoliageTaskCount + 1 ≠ (c.FoliageTasks.length : Int) := by
      rw [hj]; omega
    have h2 := ih { c with CompletedFoliageTaskCount := c.CompletedFoliageTaskCount + 1 } (j + 1)
      (by simp [hj]) (by simpa using (by omega : j + 1 + k < c.FoliageTasks.length))
    have hc : ((j + 1 + k : Nat) : Int) = ((j + (k + 1) : Nat) : Int) := by
      congr 1; omega
    simp only [OnFoliageCompleteSeq, OnFoliageComplete_below c hne, h2, List.replicate_succ, hc]

/-- The call that completes the last foliage task queues the apply request and
resets the counter; the calls before it queue nothing. -/
theorem OnFoliageCompleteSeq_last (k : Nat) :
    ∀ (c : AVoxelChunk) (r : VoxelRender) (j : Nat), c.Render = some r →
      c.CompletedFoliageTaskCount = (j : Int) → j + k + 1 = c.FoliageTasks.length →
      OnFoliageCompleteSeq (k + 1) c =
        .ok (List.replicate k [] ++ [[.AddApplyNewFoliage]],
             { c with CompletedFoliageTaskCount := 0 }) := by
  induction k with
  | zero =>
    intro c r j hr hj hlen
    have he : c.CompletedFoliageTaskCount + 1 = (c.FoliageTasks.length : Int) := by
      rw [hj]; omega
    simp [OnFoliageCompleteSeq, OnFoliageComplete_last c r hr he]
  | succ k ih =>
    intro c r j hr hj hlen
    have hne : c.CompletedFoliageTaskCount + 1 ≠ (c.FoliageTasks.length : Int) := by
      rw [hj]; omega
    have h2 := ih { c with CompletedFoliageTaskCount := c.CompletedFoliageTaskCount + 1 } r (j + 1)
      hr (by simp [hj]) (by simpa using (by omega : j + 1 + k + 1 = c.FoliageTasks.length))
    rw [OnFoliageCompleteSeq, OnFoliageComplete_below c hne]
    simp only [h2, List.replicate_succ, List.cons_append]

/-- C11 (foliage completion counting): with N >= 1 foliage tasks submitted and
the counter at 0, k < N consecutive `OnFoliageComplete()` calls queue nothing
and leave the counter at k; N calls queue exactly one apply-new-foliage
request, in the N-th call, and leave the counter at 0. -/
theorem C11_foliage_completion_count (c : AVoxelChunk) (r : VoxelRender) (N : Nat)
    (hr : c.Render = some r) (hN : 1 ≤ N) (hlen : c.FoliageTasks.length = N)
    (h0 : c.CompletedFoliageTaskCount = 0) :
    (∀ k, k < N → OnFoliageCompleteSeq k c =
      .ok (List.replicate k [], { c with CompletedFoliageTaskCount := (k : Int) })) ∧
    OnFoliageCompleteSeq N c =
      .ok (List.replicate (N - 1) [] ++ [[.AddApplyNewFoliage]],
           { c with CompletedFoliageTaskCount := 0 }) := by
  constructor
  · intro k hk
    have h := OnFoliageCompleteSeq_below k c 0 (by simpa using h0) (by omega)
    simpa using h
  · obtain ⟨m, rfl⟩ : ∃ m, N = m + 1 := ⟨N - 1, by omega⟩
    exact OnFoliageCompleteSeq_last m c r 0 hr (by simpa using h0) (by omega)

/-- C11 at the idle sample chunk of node 0 after `UpdateFoliage()`: three tasks. -/
theorem C11_foliage_completion_count_witness :
    (∀ k, k < 3 → OnFoliageCompleteSeq k sampleFoliageOut.chunk =
      .ok (List.replicate k [],
           { sampleFoliageOut.chunk with CompletedFoliageTaskCount := (k : Int) })) ∧
    OnFoliageCompleteSeq 3 sampleFoliageOut.chunk =
      .ok (List.replicate (3 - 1) [] ++ [[.AddApplyNewFoliage]],
           { sampleFoliageOut.chunk with CompletedFoliageTaskCount := 0 }) :=
  C11_foliage_completion_count sampleFoliageOut.chunk sampleRender 3 rfl (by decide) rfl rfl

/-- The flags after the first block of Update: untouched at depth 0, otherwise
computed from the adjacent nodes. -/
theorem RefreshFlags_apply (t : ChunkOctree) (n : NodeId) (c : AVoxelChunk)
    (d : TransitionDirection) :
    (RefreshFlags t n c).ChunkHasHigherRes d =
      if t.Depth n = 0 then c.ChunkHasHigherRes d else FlagValue t n d := by
  by_cases h0 : t.Depth n = 0
  · simp [RefreshFlags, h0]
  · simp [RefreshFlags, h0, UpdateFlags_apply]

/-- The first block of Update changes no member but the flag array. -/
theorem RefreshFlags_frame (t : ChunkOctree) (n : NodeId) (c : AVoxelChunk) :
    RefreshFlags t n c =
      { c with ChunkHasHigherRes := (RefreshFlags t n c).ChunkHasHigherRes } := by
  unfold RefreshFlags
  split <;> rfl

/-- C12 as stated fails: node 0 (depth 2) gets its task started while it has no
adjacent node; once node 1 is adjacent a further `Update(true)` finds the task
outstanding, returns false, and yet changes the cached flag of direction 0
from false to true. -/
theorem C12_update_busy_noop_counterexample :
    (chunkOf (runT sampleEngine
        [(loneTree, .Init (some 0)), (loneTree, .Update true)]
        (AVoxelChunk.new "Chunk"))).map
        (fun c => (c.MeshBuilder.isSome, c.ChunkHasHigherRes 0)) = some (true, false) ∧
    (chunkOf (runT sampleEngine
        [(loneTree, .Init (some 0)), (loneTree, .Update true), (sampleTree, .Update true)]
        (AVoxelChunk.new "Chunk"))).map
        (fun c => (c.MeshBuilder.isSome, c.ChunkHasHigherRes 0)) = some (true, true) := by
  constructor <;> rfl

/-- C12 amended (Update(true) while a build is outstanding): it returns false,
sends nothing, and changes no member other than the cached neighbour flags;
these are left as they are at depth 0 and recomputed from the adjacent nodes
otherwise. -/
theorem C12_update_busy_noop (e : Engine) (t : ChunkOctree) (c : AVoxelChunk) (n : NodeId)
    (mb : FAsyncPolygonizerTask) (hn : c.CurrentOctree = some n)
    (hm : c.MeshBuilder = some mb) :
    ∃ o, Update e t true c = .ok o ∧ o.ret = false ∧ o.events = [] ∧
      o.chunk = { c with ChunkHasHigherRes := o.chunk.ChunkHasHigherRes } ∧
      (∀ d, o.chunk.ChunkHasHigherRes d =
        if t.Depth n = 0 then c.ChunkHasHigherRes d else FlagValue t n d) ∧
      (t.Depth n = 0 → o.chunk = c) :=
  ⟨_, Update_async_busy e t c n mb hn hm, rfl, rfl, RefreshFlags_frame t n c,
    fun d => RefreshFlags_apply t n c d, fun h0 => by simp [RefreshFlags, h0]⟩

/-- C12 amended at the busy sample chunk, in the sample tree (depth 2) and in
the root tree (depth 0, where the whole state is unchanged). -/
theorem C12_update_busy_noop_witness :
    (∃ o, Update sampleEngine sampleTree true busyChunk = .ok o ∧ o.ret = false ∧
      o.events = [] ∧
      o.chunk = { busyChunk with ChunkHasHigherRes := o.chunk.ChunkHasHigherRes } ∧
      (∀ d, o.chunk.ChunkHasHigherRes d =
        if sampleTree.Depth 0 = 0 then busyChunk.ChunkHasHigherRes d
        else FlagValue sampleTree 0 d) ∧
      (sampleTree.Depth 0 = 0 → o.chunk = busyChunk)) ∧
    (∃ o, Update sampleEngine rootTree true busyChunk = .ok o ∧ o.ret = false ∧
      o.events = [] ∧ o.chunk = busyChunk) :=
  ⟨C12_update_busy_noop sampleEngine sampleTree busyChunk 0 _ rfl rfl,
   match C12_update_busy_noop sampleEngine rootTree busyChunk 0 _ rfl rfl with
   | ⟨o, h1, h2, h3, _, _, h6⟩ => ⟨o, h1, h2, h3, h6 rfl⟩⟩

/-- A completed `Update` leaves the chunk bound to its node with the refreshed
flags, whatever else the chunk held. -/
theorem Update_ok_flags (e : Engine) (t : ChunkOctree) (bAsync : Bool) (c : AVoxelChunk)
    (n : NodeId) (o : Out Bool) (hn : c.CurrentOctree = some n)
    (h : Update e t bAsync c = .ok o) :
    o.chunk.CurrentOctree = some n ∧
    o.chunk.ChunkHasHigherRes = (RefreshFlags t n c).ChunkHasHigherRes := by
  obtain ⟨f1, f2, f3, f4⟩ := RefreshFlags_fields t n c
  cases hr : c.Render with
  | none =>
    cases bAsync with
    | false =>
      rw [hn] at f1; rw [hr] at f2
      simp [Update, hn, CreateBuilder, f1, f2] at h
    | true =>
      cases hm : c.MeshBuilder with
      | some mb =>
        rw [Update_async_busy e t c n mb hn hm] at h
        cases h
        exact ⟨f1.trans hn, rfl⟩
      | none =>
        rw [hn] at f1; rw [hr] at f2; rw [hm] at f3
        cases hb : c.Builder with
        | none =>
          rw [hb] at f4
          simp [Update, hn, f3, CreateBuilder, f4, f1, f2] at h
        | some b =>
          rw [hb] at f4
          simp [Update, hn, f3, CreateBuilder, f4] at h
  | some r =>
    cases bAsync with
    | false =>
      rw [Update_sync e t c n r hn hr] at h
      cases h
      exact ⟨f1.trans hn, rfl⟩
    | true =>
      cases hm : c.MeshBuilder with
      | some mb =>
        rw [Update_async_busy e t c n mb hn hm] at h
        cases h
        exact ⟨f1.trans hn, rfl⟩
      | none =>
        cases hb : c.Builder with
        | none =>
          rw [Update_async_idle e t c n r hn hr hm hb] at h
          cases h
          exact ⟨f1.trans hn, rfl⟩
        | some b =>
          rw [hm] at f3; rw [hb] at f4
          simp [Update, hn, f3, CreateBuilder, f4] at h

/-- The loop body of CheckTransitions sends nothing toward an adjacent node whose
chunk is bound to that node, has refreshed its flags against the tree, and has
the checking node as its adjacent node in the inverted direction. -/
theorem CheckTransition_stable (e : Engine) (t : ChunkOctree) (c nc nc0 : AVoxelChunk)
    (n m : NodeId) (d : TransitionDirection)
    (hn : c.CurrentOctree = some n)
    (hadj : t.GetAdjacentChunk n d = some m)
    (hback : t.GetAdjacentChunk m (e.InvertTransitionDirection d) = some n)
    (hg : t.GetVoxelChunk m = some nc)
    (hm : nc.CurrentOctree = some m)
    (hf : nc.ChunkHasHigherRes = (RefreshFlags t m nc0).ChunkHasHigherRes) :
    CheckTransition e t c d = .ok [] := by
  simp only [CheckTransition, hn, hadj, hg, HasChunkHigherRes, hm, hf, RefreshFlags_apply]
  by_cases h0 : t.Depth m = 0
  · simp [h0]
  · simp [h0, FlagValue, hback]

/-- C13 (transition checks reach a stable state): for two chunks bound to
mutually adjacent nodes, each recorded in the tree as it is after its own
`Update` against that tree, the pass of CheckTransitions of the first chunk in
direction d sends no request, and neither does the pass of the second chunk in
the inverted direction, whatever the two depths are; CheckTransitions changes
no chunk, so repeating it sends nothing either. -/
theorem C13_transitions_stable (e : Engine) (t : ChunkOctree) (bA bB : Bool)
    (cA cB : AVoxelChunk) (oA oB : Out Bool) (nA nB : NodeId) (d : TransitionDirection)
    (hA : cA.CurrentOctree = some nA) (hB : cB.CurrentOctree = some nB)
    (hUA : Update e t bA cA = .ok oA) (hUB : Update e t bB cB = .ok oB)
    (hGA : t.GetVoxelChunk nA = some oA.chunk) (hGB : t.GetVoxelChunk nB = some oB.chunk)
    (adjAB : t.GetAdjacentChunk nA d = some nB)
    (adjBA : t.GetAdjacentChunk nB (e.InvertTransitionDirection d) = some nA)
    (hinv : e.InvertTransitionDirection (e.InvertTransitionDirection d) = d) :
    CheckTransition e t oA.chunk d = .ok [] ∧
    CheckTransition e t oB.chunk (e.InvertTransitionDirection d) = .ok [] := by
  obtain ⟨a1, a2⟩ := Update_ok_flags e t bA cA nA oA hA hUA
  obtain ⟨b1, b2⟩ := Update_ok_flags e t bB cB nB oB hB hUB
  constructor
  · exact CheckTransition_stable e t oA.chunk oB.chunk cB nA nB d a1 adjAB adjBA hGB b1 b2
  · refine CheckTransition_stable e t oB.chunk oA.chunk cA nB nA _ b1 adjBA ?_ hGA a1 a2
    rw [hinv]; exact adjAB

/-- C13 at the sample tree with both chunks updated: node 1 (depth 1) checks
direction 1 toward node 0 (depth 2), node 0 checks direction 0 toward node 1. -/
theorem C13_transitions_stable_witness :
    CheckTransition sampleEngine updatedTree (updatedOut 1).chunk 1 = .ok [] ∧
    CheckTransition sampleEngine updatedTree (updatedOut 0).chunk
      (sampleEngine.InvertTransitionDirection 1) = .ok [] :=
  C13_transitions_stable sampleEngine updatedTree false false (sampleChunk 1) (sampleChunk 0)
    (updatedOut 1) (updatedOut 0) 1 0 1 rfl rfl rfl rfl rfl rfl rfl rfl rfl

/-- Every request one pass of the loop body of CheckTransitions sends is an async
remesh of the adjacent node of its direction. -/
theorem CheckTransition_targets (e : Engine) (t : ChunkOctree) (c : AVoxelChunk)
    (d : TransitionDirection) (evs : List Event)
    (h : CheckTransition e t c d = .ok evs) (ev : Event) (hev : ev ∈ evs) :
    ∃ n m, c.CurrentOctree = some n ∧ t.GetAdjacentChunk n d = some m ∧
      ev = .UpdateChunk m true := by
  unfold CheckTransition at h
  cases hn : c.CurrentOctree with
  | none => simp [hn] at h
  | some n =>
    cases hadj : t.GetAdjacentChunk n d with
    | none =>
      simp [hn, hadj] at h
      subst h; simp at hev
    | some m =>
      simp only [hn, hadj] at h
      split at h
      · cases h
      · split at h
        · cases h
        · split at h
          · cases h
            simp only [List.mem_singleton] at hev
            exact ⟨n, m, rfl, hadj, hev⟩
          · cases h; simp at hev

/-- Every request the loop of CheckTransitions sends is an async remesh of an
adjacent node. -/
theorem CheckTransitionsLoop_targets (e : Engine) (t : ChunkOctree) (c : AVoxelChunk)
    (l : List TransitionDirection) :
    ∀ evs, CheckTransitionsLoop e t c l = .ok evs → ∀ ev ∈ evs,
      ∃ n d m, c.CurrentOctree = some n ∧ t.GetAdjacentChunk n d = some m ∧
        ev = .UpdateChunk m true := by
  induction l with
  | nil =>
    intro evs h ev hev
    simp [CheckTransitionsLoop] at h
    subst h; simp at hev
  | cons d ds ih =>
    intro evs h ev hev
    unfold CheckTransitionsLoop at h
    cases h1 : CheckTransition e t c d with
    | error f => simp [h1] at h
    | ok ev1 =>
      cases h2 : CheckTransitionsLoop e t c ds with
      | error f => simp [h1, h2] at h
      | ok ev2 =>
        simp [h1, h2] at h
        subst h
        rcases List.mem_append.mp hev with hm | hm
        · obtain ⟨n, m, a, b, c1⟩ := CheckTransition_targets e t c d ev1 h1 ev hm
          exact ⟨n, d, m, a, b, c1⟩
        · exact ih ev2 h2 ev hm

/-- C14 (CheckTransitions does not mutate the checking chunk): whenever
`CheckTransitions()` runs to its end the chunk is exactly as before and every
event is an async remesh request for a node that GetAdjacentChunk returns for
the chunk's own node; and it does run to its end on a bound chunk whose
adjacent nodes all have a bound chunk. -/
theorem C14_check_transitions_frame (e : Engine) (t : ChunkOctree) (c : AVoxelChunk) :
    (∀ o, CheckTransitions e t c = .ok o →
      o.chunk = c ∧
      ∀ ev ∈ o.events, ∃ n d m, c.CurrentOctree = some n ∧
        t.GetAdjacentChunk n d = some m ∧ ev = .UpdateChunk m true) ∧
    (∀ n r, c.CurrentOctree = some n → c.Render = some r →
      (∀ d m, t.GetAdjacentChunk n d = some m →
        ∃ nc k, t.GetVoxelChunk m = some nc ∧ nc.CurrentOctree = some k) →
      ∃ o, CheckTransitions e t c = .ok o ∧ o.chunk = c) := by
  constructor
  · intro o h
    unfold CheckTransitions at h
    cases hr : c.Render with
    | none => simp [hr] at h
    | some r =>
      simp only [hr] at h
      cases hb : r.World.bComputeTransitions with
      | false =>
        simp [hb] at h
        subst h
        exact ⟨rfl, fun ev hev => by simp at hev⟩
      | true =>
        cases hl : CheckTransitionsLoop e t c allDirections with
        | error f => simp [hb, hl] at h
        | ok evs =>
          simp [hb, hl] at h
          subst h
          exact ⟨rfl, CheckTransitionsLoop_targets e t c allDirections evs hl⟩
  · intro n r hn hr hnb
    unfold CheckTransitions
    simp only [hr]
    cases hb : r.World.bComputeTransitions with
    | false => exact ⟨{ ret := (), chunk := c, events := [] }, by simp, rfl⟩
    | true =>
      exact ⟨{ ret := (), chunk := c, events := MismatchRequests e t n },
        by simp [CheckTransitionsLoop_eq e t c n hn hnb allDirections, MismatchRequests], rfl⟩

/-- C14 at the chunk of node 1 of the bound sample tree, which sends one request. -/
theorem C14_check_transitions_frame_witness :
    ∃ o, CheckTransitions sampleEngine boundTree (sampleChunk 1) = .ok o ∧
      o.chunk = sampleChunk 1 ∧
      ∀ ev ∈ o.events, ∃ n d m, (sampleChunk 1).CurrentOctree = some n ∧
        boundTree.GetAdjacentChunk n d = some m ∧ ev = .UpdateChunk m true :=
  match (C14_check_transitions_frame sampleEngine boundTree (sampleChunk 1)).2 1 sampleRender
      rfl rfl (fun _ m _ => ⟨sampleChunk m, m, rfl, rfl⟩) with
  | ⟨o, h, _⟩ =>
    ⟨o, h, (C14_check_transitions_frame sampleEngine boundTree (sampleChunk 1)).1 o h⟩

/-- C15 (synchronous update): on a bound chunk, with or without an outstanding
mesh task, `Update(false)` returns true, ends with task handle and builder
null, stores and pushes to the mesh component exactly the section the
polygonizer produces from the node depth, the world data, the node's minimal
corner, the flags as refreshed by this call and
`Depth != 0 && bComputeTransitions`, and queues exactly one foliage update. -/
theorem C15_sync_update (e : Engine) (t : ChunkOctree) (c : AVoxelChunk) (n : NodeId)
    (r : VoxelRender) (hn : c.CurrentOctree = some n) (hr : c.Render = some r) :
    ∃ o flags, Update e t false c = .ok o ∧ o.ret = true ∧
      o.chunk.MeshBuilder = none ∧ o.chunk.Builder = none ∧
      (∀ d, flags d = if t.Depth n = 0 then c.ChunkHasHigherRes d else FlagValue t n d) ∧
      o.chunk.ChunkHasHigherRes = flags ∧
      o.chunk.PrimaryMesh = some (e.CreateSection
        { Depth := t.Depth n
          Data := r.World.Data
          ChunkPosition := t.GetMinimalCornerPosition n
          ChunkHasHigherRes := flags
          bComputeTransitions := (t.Depth n != 0 && r.World.bComputeTransitions) }) ∧
      o.chunk.PrimaryMesh = some o.chunk.Section ∧
      o.events = [.AddFoliageUpdate, .SetProcMeshSection 0 o.chunk.Section,
        .UpdateComponentInNavOctree] ∧
      o.events.count .AddFoliageUpdate = 1 :=
  ⟨_, (RefreshFlags t n c).ChunkHasHigherRes, Update_sync e t c n r hn hr, rfl, rfl, rfl,
    fun d => RefreshFlags_apply t n c d, rfl, rfl, rfl, rfl, by simp [List.count_cons]⟩

/-- C15 at the busy sample chunk, which has a mesh task outstanding. -/
theorem C15_sync_update_witness :
    ∃ o flags, Update sampleEngine sampleTree false busyChunk = .ok o ∧ o.ret = true ∧
      o.chunk.MeshBuilder = none ∧ o.chunk.Builder = none ∧
      (∀ d, flags d = if sampleTree.Depth 0 = 0 then busyChunk.ChunkHasHigherRes d
        else FlagValue sampleTree 0 d) ∧
      o.chunk.ChunkHasHigherRes = flags ∧
      o.chunk.PrimaryMesh = some (sampleEngine.CreateSection
        { Depth := sampleTree.Depth 0
          Data := sampleRender.World.Data
          ChunkPosition := sampleTree.GetMinimalCornerPosition 0
          ChunkHasHigherRes := flags
          bComputeTransitions := (sampleTree.Depth 0 != 0 &&
            sampleRender.World.bComputeTransitions) }) ∧
      o.chunk.PrimaryMesh = some o.chunk.Section ∧
      o.events = [.AddFoliageUpdate, .SetProcMeshSection 0 o.chunk.Section,
        .UpdateComponentInNavOctree] ∧
      o.events.count .AddFoliageUpdate = 1 :=
  C15_sync_update sampleEngine sampleTree busyChunk 0 sampleRender rfl rfl

/-- C16 (ApplyNewMesh): on a chunk with its render manager set,
`ApplyNewMesh()` ends with task handle and builder null, pushes the staged
section to the mesh component, queues exactly one foliage update, starts no
foliage task and leaves the foliage task list and the staged section as they
were. -/
theorem C16_apply_new_mesh (c : AVoxelChunk) (r : VoxelRender) (hr : c.Render = some r) :
    ∃ o, ApplyNewMesh c = .ok o ∧
      o.chunk = { c with MeshBuilder := none, Builder := none, PrimaryMesh := some c.Section } ∧
      o.chunk.MeshBuilder = none ∧ o.chunk.Builder = none ∧
      o.chunk.PrimaryMesh = some c.Section ∧
      o.events = [.AddFoliageUpdate, .SetProcMeshSection 0 c.Section,
        .UpdateComponentInNavOctree] ∧
      o.events.count .AddFoliageUpdate = 1 ∧
      (∀ task, Event.StartFoliageTask task ∉ o.events) ∧
      o.chunk.FoliageTasks = c.FoliageTasks := by
  refine ⟨{ ret := ()
            chunk := { c with MeshBuilder := none, Builder := none,
                              PrimaryMesh := some c.Section }
            events := [.AddFoliageUpdate, .SetProcMeshSection 0 c.Section,
              .UpdateComponentInNavOctree] }, ?_, rfl, rfl, rfl, rfl, rfl, ?_, ?_, rfl⟩
  · simp [ApplyNewMesh, hr]
  · simp [List.count_cons]
  · intro task; simp

/-- C16 at the busy sample chunk. -/
theorem C16_apply_new_mesh_witness :
    ∃ o, ApplyNewMesh busyChunk = .ok o ∧
      o.chunk = { busyChunk with MeshBuilder := none, Builder := none,
                                 PrimaryMesh := some busyChunk.Section } ∧
      o.chunk.MeshBuilder = none ∧ o.chunk.Builder = none ∧
      o.chunk.PrimaryMesh = some busyChunk.Section ∧
      o.events = [.AddFoliageUpdate, .SetProcMeshSection 0 busyChunk.Section,
        .UpdateComponentInNavOctree] ∧
      o.events.count .AddFoliageUpdate = 1 ∧
      (∀ task, Event.StartFoliageTask task ∉ o.events) ∧
      o.chunk.FoliageTasks = busyChunk.FoliageTasks :=
  C16_apply_new_mesh busyChunk sampleRender rfl

/-- The body of the task loop of ApplyNewFoliage creates the component of a task
that has instances and nothing for a task without. -/
theorem FoliageComponentOfTask_eq (e : Engine) (c : AVoxelChunk) (a : FAsyncFoliageTask) :
    FoliageComponentOfTask e c a =
      if HasInstances e a then some (ComponentOfTask e c a) else none := by
  by_cases h : (e.FoliageWork a).InstanceBuffer.length = 0
  · have h1 : HasInstances e a = false := by simp [HasInstances, h]
    simp [FoliageComponentOfTask, h, h1]
  · have h1 : HasInstances e a = true := by
      simp only [HasInstances, decide_eq_true_eq]; omega
    have h2 : ((e.FoliageWork a).InstanceBuffer.length != 0) = true := by
      simp only [bne_iff_ne, ne_eq]; exact h
    simp only [FoliageComponentOfTask, h2, h1, if_true]
    rfl

/-- The task loop of ApplyNewFoliage creates the component of each task that
has instances and none for the others. -/
theorem filterMap_FoliageComponentOfTask (e : Engine) (c : AVoxelChunk)
    (l : List FAsyncFoliageTask) :
    l.filterMap (FoliageComponentOfTask e c) =
      (l.filter (HasInstances e)).map (ComponentOfTask e c) := by
  induction l with
  | nil => rfl
  | cons a l ih =>
    cases h : HasInstances e a <;>
      simp [List.filterMap_cons, FoliageComponentOfTask_eq, h, List.filter_cons, ih]

/-- C17 (ApplyNewFoliage replaces the foliage set wholesale): `ApplyNewFoliage()`
destroys every component held before and nothing else, the new set is, in
task order, one new component for each task with at least one instance and
none for a task without, so its size is the number of such tasks, and the
foliage task list ends empty; no other member changes. -/
theorem C17_apply_new_foliage (e : Engine) (c : AVoxelChunk) :
    (ApplyNewFoliage e c).events = c.FoliageComponents.map Event.DestroyComponent ∧
    (ApplyNewFoliage e c).chunk.FoliageComponents =
      (c.FoliageTasks.filter (HasInstances e)).map (ComponentOfTask e c) ∧
    (ApplyNewFoliage e c).chunk.FoliageComponents.length =
      (c.FoliageTasks.filter (HasInstances e)).length ∧
    (ApplyNewFoliage e c).chunk.FoliageTasks = [] ∧
    (ApplyNewFoliage e c).chunk =
      { c with FoliageComponents := (ApplyNewFoliage e c).chunk.FoliageComponents
               FoliageTasks := [] } := by
  have h : (ApplyNewFoliage e c).chunk.FoliageComponents =
      (c.FoliageTasks.filter (HasInstances e)).map (ComponentOfTask e c) := by
    have h1 := filterMap_FoliageComponentOfTask e { c with FoliageComponents := [] } c.FoliageTasks
    simpa [ApplyNewFoliage, ComponentOfTask] using h1
  refine ⟨rfl, h, ?_, rfl, rfl⟩
  rw [h, List.length_map]

/-- C18 as stated fails: node 0 (depth 2) runs `Update` next to the shallower
node 1 and caches true for direction 0; once no node is adjacent any more, a
further `Update` writes false to that flag instead of keeping true. -/
theorem C18_absent_neighbour_counterexample :
    (chunkOf (runT sampleEngine
        [(sampleTree, .Init (some 0)), (sampleTree, .Update false)]
        (AVoxelChunk.new "Chunk"))).map (fun c => c.ChunkHasHigherRes 0) = some true ∧
    loneTree.Depth 0 = 2 ∧ loneTree.GetAdjacentChunk 0 0 = none ∧
    (chunkOf (runT sampleEngine
        [(sampleTree, .Init (some 0)), (sampleTree, .Update false), (loneTree, .Update false)]
        (AVoxelChunk.new "Chunk"))).map (fun c => c.ChunkHasHigherRes 0) = some false := by
  refine ⟨rfl, rfl, rfl, rfl⟩

/-- C18 amended (absent neighbour): for a chunk bound to a node of depth other
than 0, `Update` sets the cached flag of every direction without an adjacent
node to false, whatever it was before; the flag of a direction with an
adjacent node becomes whether that node's depth is smaller than the chunk's. -/
theorem C18_absent_neighbour (e : Engine) (t : ChunkOctree) (bAsync : Bool) (c : AVoxelChunk)
    (n : NodeId) (r : VoxelRender) (hn : c.CurrentOctree = some n) (hr : c.Render = some r)
    (hb : c.MeshBuilder = none → c.Builder = none) (hd : t.Depth n ≠ 0) :
    ∃ o, Update e t bAsync c = .ok o ∧
      (∀ d, t.GetAdjacentChunk n d = none → o.chunk.ChunkHasHigherRes d = false) ∧
      (∀ d m, t.GetAdjacentChunk n d = some m →
        o.chunk.ChunkHasHigherRes d = decide (t.Depth m < t.Depth n)) := by
  obtain ⟨o, h1, _, h3⟩ := Update_flags e t bAsync c n r hn hr hb
  refine ⟨o, h1, ?_, ?_⟩
  · intro d hadj
    rw [h3, RefreshFlags_apply]
    simp [hd, FlagValue, hadj]
  · intro d m hadj
    rw [h3, RefreshFlags_apply]
    simp [hd, FlagValue, hadj]

/-- C18 amended at the flagged sample chunk of node 0: direction 3 has no
adjacent node and its flag, set before, is false after `Update(true)`;
direction 0 has the shallower node 1 and its flag is true. -/
theorem C18_absent_neighbour_witness :
    ∃ o, Update sampleEngine sampleTree true (flaggedChunk 0) = .ok o ∧
      (flaggedChunk 0).ChunkHasHigherRes 3 = true ∧
      o.chunk.ChunkHasHigherRes 3 = false ∧ o.chunk.ChunkHasHigherRes 0 = true :=
  match C18_absent_neighbour sampleEngine sampleTree true (flaggedChunk 0) 0 sampleRender
      rfl rfl (fun _ => rfl) (by decide) with
  | ⟨o, h1, h2, h3⟩ => ⟨o, h1, rfl, h2 3 rfl, (h3 0 1 rfl).trans (by decide)⟩

/-- A completed `Update` leaves a null builder with a null task handle, when
the chunk had it so before. -/
theorem Update_ok_inv (e : Engine) (t : ChunkOctree) (bAsync : Bool) (c : AVoxelChunk)
    (o : Out Bool) (hi : BuilderInv c) (h : Update e t bAsync c = .ok o) :
    BuilderInv o.chunk := by
  cases hn : c.CurrentOctree with
  | none => simp [Update, hn] at h
  | some n =>
    obtain ⟨f1, f2, f3, f4⟩ := RefreshFlags_fields t n c
    cases bAsync with
    | false =>
      cases hr : c.Render with
      | none =>
        rw [hn] at f1; rw [hr] at f2
        simp [Update, hn, CreateBuilder, f1, f2] at h
      | some r =>
        rw [Update_sync e t c n r hn hr] at h
        cases h
        intro _; rfl
    | true =>
      cases hm : c.MeshBuilder with
      | some mb =>
        rw [Update_async_busy e t c n mb hn hm] at h
        cases h
        intro hq
        rw [f3, hm] at hq
        cases hq
      | none =>
        cases hr : c.Render with
        | none =>
          rw [hn] at f1; rw [hr] at f2; rw [hm] at f3; rw [hi hm] at f4
          simp [Update, hn, f3, CreateBuilder, f4, f1, f2] at h
        | some r =>
          rw [Update_async_idle e t c n r hn hr hm (hi hm)] at h
          cases h
          intro hq
          cases hq

/-- With a null builder whenever the task handle is null, `check(!Builder)` in
CreateBuilder cannot fail in `Update`. -/
theorem Update_no_assertion (e : Engine) (t : ChunkOctree) (bAsync : Bool) (c : AVoxelChunk)
    (hi : BuilderInv c) : Update e t bAsync c ≠ .error .assertion := by
  cases hn : c.CurrentOctree with
  | none => simp [Update, hn]
  | some n =>
    obtain ⟨f1, f2, f3, f4⟩ := RefreshFlags_fields t n c
    cases bAsync with
    | false =>
      cases hr : c.Render with
      | none =>
        rw [hn] at f1; rw [hr] at f2
        simp [Update, hn, CreateBuilder, f1, f2]
      | some r =>
        rw [Update_sync e t c n r hn hr]
        simp
    | true =>
      cases hm : c.MeshBuilder with
      | some mb =>
        rw [Update_async_busy e t c n mb hn hm]
        simp
      | none =>
        cases hr : c.Render with
        | none =>
          rw [hn] at f1; rw [hr] at f2; rw [hm] at f3; rw [hi hm] at f4
          simp [Update, hn, f3, CreateBuilder, f4, f1, f2]
        | some r =>
          rw [Update_async_idle e t c n r hn hr hm (hi hm)]
          simp

/-- A completed `CheckTransitions()` returns the chunk it was called on. -/
theorem CheckTransitions_chunk (e : Engine) (t : ChunkOctree) (c : AVoxelChunk) :
    ∀ o, CheckTransitions e t c = .ok o → o.chunk = c := by
  intro o h
  unfold CheckTransitions at h
  cases hr : c.Render with
  | none => simp [hr] at h
  | some r =>
    simp only [hr] at h
    cases hb : r.World.bComputeTransitions with
    | false =>
      simp [hb] at h
      subst h; rfl
    | true =>
      cases hl : CheckTransitionsLoop e t c allDirections with
      | error f => simp [hb, hl] at h
      | ok evs =>
        simp [hb, hl] at h
        subst h; rfl

/-- A completed `UpdateFoliage()` leaves the mesh task handle and the builder
as they were. -/
theorem UpdateFoliage_builders (t : ChunkOctree) (c : AVoxelChunk) (o : Out Bool)
    (h : UpdateFoliage t c = .ok o) :
    o.chunk.MeshBuilder = c.MeshBuilder ∧ o.chunk.Builder = c.Builder := by
  unfold UpdateFoliage at h
  split at h
  · split at h
    · cases h
    · split at h
      · split at h
        · cases h; exact ⟨rfl, rfl⟩
        · cases h
      · cases h; exact ⟨rfl, rfl⟩
  · cases h; exact ⟨rfl, rfl⟩

/-- A completed `OnFoliageComplete()` leaves the mesh task handle and the
builder as they were. -/
theorem OnFoliageComplete_builders (c : AVoxelChunk) (o : Out Unit)
    (h : OnFoliageComplete c = .ok o) :
    o.chunk.MeshBuilder = c.MeshBuilder ∧ o.chunk.Builder = c.Builder := by
  by_cases he : c.CompletedFoliageTaskCount + 1 = (c.FoliageTasks.length : Int)
  · cases hr : c.Render with
    | none => simp [OnFoliageComplete, he, OnAllFoliageComplete, hr] at h
    | some r =>
      rw [OnFoliageComplete_last c r hr he] at h
      cases h; exact ⟨rfl, rfl⟩
  · rw [OnFoliageComplete_below c he] at h
    cases h; exact ⟨rfl, rfl⟩

/-- Every call that runs to its end keeps a null builder with a null task
handle. -/
theorem step_inv (e : Engine) (t : ChunkOctree) (c c1 : AVoxelChunk) (k : Call)
    (ev : List Event) (hi : BuilderInv c) (h : step e t c k = .ok (c1, ev)) :
    BuilderInv c1 := by
  cases k with
  | Init n =>
    cases n with
    | none => simp [step, Init, Except.map] at h
    | some n =>
      simp [step, Init, Except.map] at h
      obtain ⟨h1, _⟩ := h
      subst h1
      exact hi
  | Update b =>
    cases hu : Update e t b c with
    | error f => simp [step, hu, Except.map] at h
    | ok o =>
      simp [step, hu, Except.map] at h
      obtain ⟨h1, _⟩ := h
      subst h1
      exact Update_ok_inv e t b c o hi hu
  | CheckTransitions =>
    cases hu : CheckTransitions e t c with
    | error f => simp [step, hu, Except.map] at h
    | ok o =>
      simp [step, hu, Except.map] at h
      obtain ⟨h1, _⟩ := h
      subst h1
      rw [((CheckTransitions_chunk e t c) o hu)]
      exact hi
  | Unload hnd =>
    cases hr : c.Render with
    | none => simp [step, Unload, DeleteTasks, hr, Except.map] at h
    | some r =>
      simp [step, Unload, DeleteTasks, hr, Except.map] at h
      obtain ⟨h1, _⟩ := h
      subst h1
      intro _; rfl
  | Delete =>
    cases hr : c.Render with
    | none => simp [step, Delete, DeleteTasks, hr, Except.map] at h
    | some r =>
      simp [step, Delete, DeleteTasks, hr, Except.map] at h
      obtain ⟨h1, _⟩ := h
      subst h1
      intro _; rfl
  | OnMeshComplete sec =>
    cases hr : c.Render with
    | none => simp [step, OnMeshComplete, hr, Except.map] at h
    | some r =>
      simp [step, OnMeshComplete, hr, Except.map] at h
      obtain ⟨h1, _⟩ := h
      subst h1
      exact hi
  | ApplyNewMesh =>
    cases hr : c.Render with
    | none => simp [step, ApplyNewMesh, hr, Except.map] at h
    | some r =>
      simp [step, ApplyNewMesh, hr, Except.map] at h
      obtain ⟨h1, _⟩ := h
      subst h1
      intro _; rfl
  | UpdateFoliage =>
    cases hu : UpdateFoliage t c with
    | error f => simp [step, hu, Except.map] at h
    | ok o =>
      simp [step, hu, Except.map] at h
      obtain ⟨h1, _⟩ := h
      subst h1
      obtain ⟨g1, g2⟩ := UpdateFoliage_builders t c o hu
      intro hq
      rw [g2]; exact hi (g1 ▸ hq)
  | OnFoliageComplete =>
    cases hu : OnFoliageComplete c with
    | error f => simp [step, hu, Except.map] at h
    | ok o =>
      simp [step, hu, Except.map] at h
      obtain ⟨h1, _⟩ := h
      subst h1
      obtain ⟨g1, g2⟩ := OnFoliageComplete_builders c o hu
      intro hq
      rw [g2]; exact hi (g1 ▸ hq)
  | ApplyNewFoliage =>
    simp [step] at h
    obtain ⟨h1, _⟩ := h
    subst h1
    exact hi
  | DeleteTasks =>
    simp [step, DeleteTasks] at h
    obtain ⟨h1, _⟩ := h
    subst h1
    intro _; rfl
  | SetMaterial m =>
    simp [step, SetMaterial] at h
    obtain ⟨h1, _⟩ := h
    subst h1
    exact hi

/-- Every sequence of calls that runs to its end keeps a null builder with a
null task handle. -/
theorem runT_inv (e : Engine) (calls : List (ChunkOctree × Call)) :
    ∀ (c c1 : AVoxelChunk) (evs : List Event), BuilderInv c →
      runT e calls c = .ok (c1, evs) → BuilderInv c1 := by
  induction calls with
  | nil =>
    intro c c1 evs hi h
    simp [runT] at h
    obtain ⟨h1, _⟩ := h
    subst h1
    exact hi
  | cons tk ks ih =>
    intro c c1 evs hi h
    obtain ⟨t, k⟩ := tk
    unfold runT at h
    cases hs : step e t c k with
    | error f => simp [hs] at h
    | ok p =>
      obtain ⟨c2, ev⟩ := p
      cases hrun : runT e ks c2 with
      | error f => simp [hs, hrun] at h
      | ok q =>
        obtain ⟨c3, evs3⟩ := q
        simp [hs, hrun] at h
        obtain ⟨h1, _⟩ := h
        subst h1
        exact ih c2 c3 evs3 (step_inv e t c c2 k ev hi hs) hrun

/-- C19 (builder assertion is unreachable): in every state reached from the
constructor by calls that ran to their end, each against the tree as it was
at that call, a null mesh task handle comes with a null builder; hence in
such a state `Update`, async or not and against any tree, does not fail
`check(!Builder)`. -/
theorem C19_builder_assertion_unreachable (e : Engine) (Name : String)
    (calls : List (ChunkOctree × Call)) (c : AVoxelChunk) (evs : List Event)
    (h : runT e calls (AVoxelChunk.new Name) = .ok (c, evs)) :
    (c.MeshBuilder = none → c.Builder = none) ∧
    (∀ (t : ChunkOctree) (bAsync : Bool), Update e t bAsync c ≠ .error .assertion) := by
  have hi : BuilderInv c :=
    runT_inv e calls (AVoxelChunk.new Name) c evs (fun _ => rfl) h
  exact ⟨hi, fun t b => Update_no_assertion e t b c hi⟩

/-- C19 at the chunk that was bound to node 0, started a mesh build, had it
completed and applied: task handle and builder are null again and a further
`Update` passes the check. -/
theorem C19_builder_assertion_unreachable_witness :
    ∃ c evs, runT sampleEngine
        [(sampleTree, .Init (some 0)), (sampleTree, .Update true),
         (sampleTree, .OnMeshComplete sectionA), (sampleTree, .ApplyNewMesh)]
        (AVoxelChunk.new "Chunk") = .ok (c, evs) ∧
      c.MeshBuilder = none ∧
      (c.MeshBuilder = none → c.Builder = none) ∧
      (∀ (t : ChunkOctree) (bAsync : Bool),
        Update sampleEngine t bAsync c ≠ .error .assertion) :=
  ⟨_, _, rfl, rfl,
    C19_builder_assertion_unreachable sampleEngine "Chunk"
      [(sampleTree, .Init (some 0)), (sampleTree, .Update true),
       (sampleTree, .OnMeshComplete sectionA), (sampleTree, .ApplyNewMesh)] _ _ rfl⟩

/-- The first block of Update leaves the staged section alone. -/
theorem RefreshFlags_section (t : ChunkOctree) (n : NodeId) (c : AVoxelChunk) :
    (RefreshFlags t n c).Section = c.Section := by
  unfold RefreshFlags
  split <;> rfl

/-- A completed `Update(true)` leaves `Section` alone; a completed
`Update(false)` pushes to the mesh component the section it stores. -/
theorem Update_ok_section (e : Engine) (t : ChunkOctree) (bAsync : Bool) (c : AVoxelChunk)
    (o : Out Bool) (h : Update e t bAsync c = .ok o) :
    (bAsync = true → o.chunk.Section = c.Section) ∧
    (bAsync = false → pushedSection o.events = some o.chunk.Section) := by
  cases hn : c.CurrentOctree with
  | none => simp [Update, hn] at h
  | some n =>
    obtain ⟨f1, f2, f3, f4⟩ := RefreshFlags_fields t n c
    have f5 := RefreshFlags_section t n c
    cases bAsync with
    | false =>
      cases hr : c.Render with
      | none =>
        rw [hn] at f1; rw [hr] at f2
        simp [Update, hn, CreateBuilder, f1, f2] at h
      | some r =>
        rw [Update_sync e t c n r hn hr] at h
        cases h
        exact ⟨fun hq => (by cases hq), fun _ => rfl⟩
    | true =>
      cases hm : c.MeshBuilder with
      | some mb =>
        rw [Update_async_busy e t c n mb hn hm] at h
        cases h
        exact ⟨fun _ => f5, fun hq => by cases hq⟩
      | none =>
        cases hb : c.Builder with
        | some b =>
          rw [hm] at f3; rw [hb] at f4
          simp [Update, hn, f3, CreateBuilder, f4] at h
        | none =>
          cases hr : c.Render with
          | none =>
            rw [hn] at f1; rw [hr] at f2; rw [hm] at f3; rw [hb] at f4
            simp [Update, hn, f3, CreateBuilder, f4, f1, f2] at h
          | some r =>
            rw [Update_async_idle e t c n r hn hr hm hb] at h
            cases h
            exact ⟨fun _ => f5, fun hq => by cases hq⟩

/-- A completed `UpdateFoliage()` leaves `Section` alone. -/
theorem UpdateFoliage_section (t : ChunkOctree) (c : AVoxelChunk) (o : Out Bool)
    (h : UpdateFoliage t c = .ok o) : o.chunk.Section = c.Section := by
  unfold UpdateFoliage at h
  split at h
  · split at h
    · cases h
    · split at h
      · split at h
        · cases h; rfl
        · cases h
      · cases h; rfl
  · cases h; rfl

/-- A completed `OnFoliageComplete()` leaves `Section` alone. -/
theorem OnFoliageComplete_section (c : AVoxelChunk) (o : Out Unit)
    (h : OnFoliageComplete c = .ok o) : o.chunk.Section = c.Section := by
  by_cases he : c.CompletedFoliageTaskCount + 1 = (c.FoliageTasks.length : Int)
  · cases hr : c.Render with
    | none => simp [OnFoliageComplete, he, OnAllFoliageComplete, hr] at h
    | some r =>
      rw [OnFoliageComplete_last c r hr he] at h
      cases h; rfl
  · rw [OnFoliageComplete_below c he] at h
    cases h; rfl

/-- Every call that runs to its end keeps the chunk in agreement with the
reading of its history. -/
theorem step_meshInv (e : Engine) (t : ChunkOctree) (c c1 : AVoxelChunk) (k : Call)
    (ev : List Event) (g : MeshTrace) (hi : MeshInv c g)
    (h : step e t c k = .ok (c1, ev)) : MeshInv c1 (observeCall g k ev) := by
  cases k with
  | Init n =>
    cases n with
    | none => simp [step, Init, Except.map] at h
    | some n =>
      simp [step, Init, Except.map] at h
      obtain ⟨h1, _⟩ := h
      subst h1
      exact hi
  | Update b =>
    cases hu : Update e t b c with
    | error f => simp [step, hu, Except.map] at h
    | ok o =>
      simp [step, hu, Except.map] at h
      obtain ⟨h1, h2⟩ := h
      subst h1 h2
      obtain ⟨g1, g2⟩ := Update_ok_section e t b c o hu
      cases b with
      | true =>
        refine ⟨?_, hi.2⟩
        show o.chunk.Section = g.staged
        rw [g1 rfl]; exact hi.1
      | false =>
        simp only [observeCall, g2 rfl]
        exact ⟨rfl, fun _ => rfl⟩
  | CheckTransitions =>
    cases hu : CheckTransitions e t c with
    | error f => simp [step, hu, Except.map] at h
    | ok o =>
      simp [step, hu, Except.map] at h
      obtain ⟨h1, _⟩ := h
      subst h1
      rw [CheckTransitions_chunk e t c o hu]
      exact hi
  | Unload hnd =>
    cases hr : c.Render with
    | none => simp [step, Unload, DeleteTasks, hr, Except.map] at h
    | some r =>
      simp [step, Unload, DeleteTasks, hr, Except.map] at h
      obtain ⟨h1, _⟩ := h
      subst h1
      exact hi
  | Delete =>
    cases hr : c.Render with
    | none => simp [step, Delete, DeleteTasks, hr, Except.map] at h
    | some r =>
      simp [step, Delete, DeleteTasks, hr, Except.map] at h
      obtain ⟨h1, _⟩ := h
      subst h1
      exact hi
  | OnMeshComplete sec =>
    cases hr : c.Render with
    | none => simp [step, OnMeshComplete, hr, Except.map] at h
    | some r =>
      simp [step, OnMeshComplete, hr, Except.map] at h
      obtain ⟨h1, _⟩ := h
      subst h1
      exact ⟨rfl, fun hq => by cases hq⟩
  | ApplyNewMesh =>
    cases hr : c.Render with
    | none => simp [step, ApplyNewMesh, hr, Except.map] at h
    | some r =>
      simp [step, ApplyNewMesh, hr, Except.map] at h
      obtain ⟨h1, h2⟩ := h
      subst h1 h2
      simp only [observeCall, pushedSection]
      exact ⟨hi.1, fun _ => by rw [hi.1]⟩
  | UpdateFoliage =>
    cases hu : UpdateFoliage t c with
    | error f => simp [step, hu, Except.map] at h
    | ok o =>
      simp [step, hu, Except.map] at h
      obtain ⟨h1, _⟩ := h
      subst h1
      refine ⟨?_, hi.2⟩
      show o.chunk.Section = g.staged
      rw [UpdateFoliage_section t c o hu]; exact hi.1
  | OnFoliageComplete =>
    cases hu : OnFoliageComplete c with
    | error f => simp [step, hu, Except.map] at h
    | ok o =>
      simp [step, hu, Except.map] at h
      obtain ⟨h1, _⟩ := h
      subst h1
      refine ⟨?_, hi.2⟩
      show o.chunk.Section = g.staged
      rw [OnFoliageComplete_section c o hu]; exact hi.1
  | ApplyNewFoliage =>
    simp [step] at h
    obtain ⟨h1, _⟩ := h
    subst h1
    exact hi
  | DeleteTasks =>
    simp [step, DeleteTasks] at h
    obtain ⟨h1, _⟩ := h
    subst h1
    exact hi
  | SetMaterial m =>
    simp [step, SetMaterial] at h
    obtain ⟨h1, _⟩ := h
    subst h1
    exact hi

/-- Every sequence of calls that runs to its end keeps the chunk in agreement
with the reading of its history. -/
theorem runH_meshInv (e : Engine) (calls : List (ChunkOctree × Call)) :
    ∀ (c c1 : AVoxelChunk) (hist : List (Call × List Event)) (g : MeshTrace), MeshInv c g →
      runH e calls c = .ok (c1, hist) →
      MeshInv c1 (hist.foldl (fun g p => observeCall g p.1 p.2) g) := by
  induction calls with
  | nil =>
    intro c c1 hist g hi h
    simp [runH] at h
    obtain ⟨h1, h2⟩ := h
    subst h1 h2
    exact hi
  | cons tk ks ih =>
    intro c c1 hist g hi h
    obtain ⟨t, k⟩ := tk
    unfold runH at h
    cases hs : step e t c k with
    | error f => simp [hs] at h
    | ok p =>
      obtain ⟨c2, ev⟩ := p
      cases hrun : runH e ks c2 with
      | error f => simp [hs, hrun] at h
      | ok q =>
        obtain ⟨c3, h3⟩ := q
        simp [hs, hrun] at h
        obtain ⟨h1, h2⟩ := h
        subst h1 h2
        exact ih c2 c3 h3 (observeCall g k ev) (step_meshInv e t c c2 k ev g hi hs) hrun

/-- A call in the middle of a history was made on the chunk reached by the
calls before it. -/
theorem runH_split (e : Engine) (h1 : List (Call × List Event)) :
    ∀ (calls : List (ChunkOctree × Call)) (c c1 : AVoxelChunk) (k : Call) (ev : List Event)
      (h2 : List (Call × List Event)),
      runH e calls c = .ok (c1, h1 ++ (k, ev) :: h2) →
      ∃ calls1 cm t c2, runH e calls1 c = .ok (cm, h1) ∧ step e t cm k = .ok (c2, ev) := by
  induction h1 with
  | nil =>
    intro calls c c1 k ev h2 h
    cases calls with
    | nil => simp [runH] at h
    | cons tk ks =>
      obtain ⟨t, k0⟩ := tk
      unfold runH at h
      cases hs : step e t c k0 with
      | error f => simp [hs] at h
      | ok p =>
        obtain ⟨c2, ev0⟩ := p
        cases hrun : runH e ks c2 with
        | error f => simp [hs, hrun] at h
        | ok q =>
          obtain ⟨c3, h3⟩ := q
          simp [hs, hrun] at h
          obtain ⟨_, ⟨hk, hev⟩, _⟩ := h
          subst hk hev
          exact ⟨[], c, t, c2, rfl, hs⟩
  | cons p0 h1 ih =>
    intro calls c c1 k ev h2 h
    cases calls with
    | nil => simp [runH] at h
    | cons tk ks =>
      obtain ⟨t, k0⟩ := tk
      unfold runH at h
      cases hs : step e t c k0 with
      | error f => simp [hs] at h
      | ok p =>
        obtain ⟨c2, ev0⟩ := p
        cases hrun : runH e ks c2 with
        | error f => simp [hs, hrun] at h
        | ok q =>
          obtain ⟨c3, h3⟩ := q
          simp [hs, hrun] at h
          obtain ⟨_, hp, hrest⟩ := h
          subst hp hrest
          obtain ⟨calls1, cm, t1, c4, a1, a2⟩ := ih ks c2 c3 k ev h2 hrun
          refine ⟨(t, k0) :: calls1, cm, t1, c4, ?_, a2⟩
          simp [runH, hs, a1]

/-- C7 amended (foliage is built over the staged section): in every history of
calls from the constructor, each against the tree as it was at that call,
every foliage task started by an `UpdateFoliage()` call is built over the
section staged last before that call, that is the argument of the last
`OnMeshComplete`, or the section the last `Update(false)` produced if that came
later, or the empty section if there was neither; and when no `OnMeshComplete`
has occurred since the last apply by ApplyNewMesh, this is the section applied
last. -/
theorem C7_apply_before_foliage (e : Engine) (Name : String)
    (calls : List (ChunkOctree × Call)) (c : AVoxelChunk)
    (h1 h2 : List (Call × List Event)) (ev : List Event)
    (h : runH e calls (AVoxelChunk.new Name) = .ok (c, h1 ++ (Call.UpdateFoliage, ev) :: h2)) :
    (∀ task, Event.StartFoliageTask task ∈ ev → task.Section = (meshTrace h1).staged) ∧
    ((meshTrace h1).appliedIsLatest = true →
      ∀ task, Event.StartFoliageTask task ∈ ev → (meshTrace h1).applied = some task.Section) := by
  obtain ⟨calls1, cm, t, c2, a1, a2⟩ :=
    runH_split e h1 calls (AVoxelChunk.new Name) c Call.UpdateFoliage ev h2 h
  have hi : MeshInv cm (meshTrace h1) :=
    runH_meshInv e calls1 (AVoxelChunk.new Name) cm h1 _ ⟨rfl, fun hq => by cases hq⟩ a1
  have hs : ∀ task, Event.StartFoliageTask task ∈ ev → task.Section = (meshTrace h1).staged := by
    intro task hmem
    cases hu : UpdateFoliage t cm with
    | error f => simp [step, hu, Except.map] at a2
    | ok o =>
      simp [step, hu, Except.map] at a2
      obtain ⟨_, a3⟩ := a2
      subst a3
      rw [UpdateFoliage_started t cm o hu task hmem]
      exact hi.1
  refine ⟨hs, fun hl task hmem => ?_⟩
  rw [hi.2 hl, hs task hmem]

/-- C7 amended at the chunk that is bound to node 0, builds a mesh, has it
completed with section A and applied, and then updates its foliage: the three
tasks are built over section A, which is both staged and applied last. -/
theorem C7_apply_before_foliage_witness :
    (meshTrace appliedHistory).staged = sectionA ∧
    (meshTrace appliedHistory).applied = some sectionA ∧
    (∀ task, Event.StartFoliageTask task ∈ foliageEventsA →
      task.Section = (meshTrace appliedHistory).staged) ∧
    (∀ task, Event.StartFoliageTask task ∈ foliageEventsA →
      (meshTrace appliedHistory).applied = some task.Section) :=
  have hc := C7_apply_before_foliage sampleEngine "Chunk"
    (appliedCalls ++ [(sampleTree, Call.UpdateFoliage)]) foliageChunkA appliedHistory []
    foliageEventsA rfl
  ⟨rfl, rfl, hc.1, hc.2 rfl⟩

end VoxelChunk
